import Mathlib

/-!
Shallow embedding of the JsSIP RTCSession core (src/lib/RTCSession.js) and
proofs about its session state machine.

The embedding models the session as a pure state record; every public
operation, incoming request or response, and timer callback is a function
from the state to a new state together with the list of observable outputs
(emitted events and outgoing SIP messages).  Asynchronous promise
continuations of the original code are resolved within the step that
schedules them, with the outcomes of the external media engine and of the
remote peer supplied as explicit parameters of the step (matching the
single-threaded run-to-completion scheduling of the source).

Strings of the source (tags, call ids, SDP bodies) are modelled as natural
number identifiers; DTMF tone strings are lists of characters.
-/

namespace JsSIP

/-- Timer constant T1 of RFC 3261. Modelled from the spec: the Timers module
is not part of the observed source; the spec fixes the RFC 3261 default
T1 = 500 ms. -/
def T1 : Nat := 500

/-- Timer constant T2 of RFC 3261. Modelled from the spec: the Timers module
is not part of the observed source; the spec fixes the RFC 3261 default
T2 = 4 s. -/
def T2 : Nat := 4000

/-- Timer H of RFC 3261. Modelled from the spec: Timer H = 64 * T1. -/
def TIMER_H : Nat := 64 * T1

/-- Minimum Session-Expires value (RFC 4028). Modelled from the spec: the
Constants module is not part of the observed source; RFC 4028 fixes the
minimum at 90 seconds. -/
def MIN_SESSION_EXPIRES : Nat := 90

/-- Default Session-Expires value (RFC 4028). Modelled from the spec: the
Constants module is not part of the observed source. -/
def SESSION_EXPIRES : Nat := 90

/-- Default DTMF tone duration (ms). Modelled from the spec: the DTMF module
is not part of the observed source; the exact value is irrelevant to the
claims. -/
def DTMF_DEFAULT_DURATION : Nat := 100

/-- Minimum DTMF tone duration (ms). Modelled from the spec (see
DTMF_DEFAULT_DURATION). -/
def DTMF_MIN_DURATION : Nat := 70

/-- Maximum DTMF tone duration (ms). Modelled from the spec (see
DTMF_DEFAULT_DURATION). -/
def DTMF_MAX_DURATION : Nat := 6000

/-- Default DTMF inter-tone gap (ms). Modelled from the spec (see
DTMF_DEFAULT_DURATION). -/
def DTMF_DEFAULT_INTER_TONE_GAP : Nat := 500

/-- Minimum DTMF inter-tone gap (ms). Modelled from the spec (see
DTMF_DEFAULT_DURATION). -/
def DTMF_MIN_INTER_TONE_GAP : Nat := 50

/-- Session status values, the C constants of RTCSession.js. -/
inductive Status
  | null_
  | inviteSent
  | oneXXReceived
  | inviteReceived
  | waitingForAnswer
  | answered
  | waitingForAck
  | canceled
  | terminated
  | confirmed
deriving DecidableEq, Repr

/-- Event originator as used by the session events. -/
inductive Originator
  | local_
  | remote
deriving DecidableEq, Repr

/-- Failure and end causes (JsSIP_C.causes) used by RTCSession.js. -/
inductive Cause
  | bye
  | canceled
  | noAck
  | missingSdp
  | badMediaDescription
  | requestTimeout
  | connectionError
  | dialogError
  | webrtcError
  | internalError
  | rejected
  | busy
  | redirected
  | unavailable
  | notFound
  | addressIncomplete
  | incompatibleSdp
  | authenticationError
deriving DecidableEq, Repr

/-- Reason phrases appearing in outgoing Reason headers.  Literal phrases of
RTCSession.js get their own constructor; `table c` stands for the
REASON_PHRASE lookup of the Constants module for status code `c`. -/
inductive Phrase
  | sessionTimerExpired
  | mediaRenegotiationFailed
  | notAcceptableHere
  | causeText (c : Cause)
  | errorString
  | table (code : Nat)
  | empty
deriving DecidableEq, Repr

/-- SIP methods dispatched by the session. -/
inductive Method
  | invite
  | ack
  | bye
  | cancel
  | update
  | info
  | other
deriving DecidableEq, Repr

/-- Content types the session inspects on incoming INFO / re-INVITE / UPDATE. -/
inductive CT
  | dtmfRelay
  | sdp
  | otherCT
deriving DecidableEq, Repr

/-- The refresher parameter of a Session-Expires header. -/
inductive Refresher
  | uac
  | uas
deriving DecidableEq, Repr

/-- Errors raised synchronously to the caller of a public operation. -/
inductive Err
  | invalidState
  | typeError
deriving DecidableEq, Repr

/-- The confirmed dialog of a session: its identifying tags and the pending
reply flags that gate renegotiation eligibility. -/
structure Dialog where
  callId : Nat
  localTag : Nat
  remoteTag : Nat
  uacPendingReply : Bool
  uasPendingReply : Bool
deriving DecidableEq, Repr

/-- Everything the session emits or sends: lifecycle events and outgoing
SIP messages, in emission order. -/
inductive Output
  | evNewRTCSession
  | evConnecting
  | evSending
  | evProgress
  | evAccepted (o : Originator)
  | evConfirmedEv (o : Originator)
  | evEnded (o : Originator) (c : Cause)
  | evFailed (o : Originator) (c : Cause)
  | evAckReceived
  | evByeReceived
  | evSdp
  | evReinvite
  | evUpdateEv
  | evPcCreateOfferFailed
  | evPcCreateAnswerFailed
  | evPcSetLocalFailed
  | evPcSetRemoteFailed
  | replyToInvite (code : Nat)
  | reply (code : Nat) (withContact : Bool) (body : Option Nat)
  | sendAck
  | sendBye (reason : Option (Nat × Phrase))
  | sendCancel (reason : Option (Nat × Phrase))
  | sendInitialInvite
  | sendReinviteReq
  | sendUpdateReq (withSdp : Bool)
  | sendInfoReq
  | dtmfInfo (tone : Char)
  | sendGeneric (m : Method)
  | evNewDTMF
  | evNewInfo
  | appErr
deriving DecidableEq, Repr

/-- The RFC 4028 session-timers sub-state (this._sessionTimers). The armed
timer records the delay in milliseconds and whether the armed callback is
the refresher callback (true) or the expiry watchdog (false). -/
structure SessTimers where
  enabled : Bool
  refreshMethod : Method
  defaultExpires : Nat
  currentExpires : Option Nat
  running : Bool
  refresher : Bool
  timer : Option (Nat × Bool)
deriving DecidableEq, Repr

/-- The session state: the fields of RTCSession.js that drive its control
flow.  The 2xx retransmission timer stores its current timeout together
with the body captured when it was armed. -/
structure Session where
  status : Status
  isCanceled : Bool
  cancelReason : Option (Nat × Phrase)
  isConfirmedFlag : Bool
  lateSdp : Bool
  rtcReady : Bool
  dialog : Option Dialog
  earlyDialogs : List Dialog
  ackTimerArmed : Bool
  invite2xx : Option (Nat × Option Nat)
  sessionTimers : SessTimers
  tones : Option (List Char)
  tonePos : Nat
  dtmfDuration : Nat
  dtmfInterToneGap : Nat
  data : Nat
  startTimeSet : Bool
  endTimeSet : Bool
  fromTag : Option Nat
  toTag : Option Nat
  initReqBody : Option Nat
  initReqSessionExpires : Option Nat
  initReqSessionRefresher : Option Refresher
deriving DecidableEq, Repr

/-- The state of a freshly constructed session (the RTCSession constructor),
parameterised by the UA configuration values it copies. -/
def initialSession (timersEnabled : Bool) (refreshMethod : Method) : Session :=
  { status := Status.null_
    isCanceled := false
    cancelReason := none
    isConfirmedFlag := false
    lateSdp := false
    rtcReady := true
    dialog := none
    earlyDialogs := []
    ackTimerArmed := false
    invite2xx := none
    sessionTimers :=
      { enabled := timersEnabled
        refreshMethod := refreshMethod
        defaultExpires := SESSION_EXPIRES
        currentExpires := none
        running := false
        refresher := false
        timer := none }
    tones := none
    tonePos := 0
    dtmfDuration := DTMF_DEFAULT_DURATION
    dtmfInterToneGap := DTMF_DEFAULT_INTER_TONE_GAP
    data := 0
    startTimeSet := false
    endTimeSet := false
    fromTag := none
    toTag := none
    initReqBody := none
    initReqSessionExpires := none
    initReqSessionRefresher := none }

/-- The _close method: on a non-terminated session, set TERMINATED, clear
all SIP timers and the session timer, and drop the confirmed and early
dialogs; on a terminated session, return immediately. -/
def close (s : Session) : Session :=
  if s.status = Status.terminated then s
  else
    { s with
      status := Status.terminated
      ackTimerArmed := false
      invite2xx := none
      sessionTimers := { s.sessionTimers with timer := none }
      dialog := none
      earlyDialogs := [] }

/-- The _ended method: record end time, close, emit the ended event. -/
def emitEnded (o : Originator) (c : Cause) (s : Session) : Session × List Output :=
  (close { s with endTimeSet := true }, [Output.evEnded o c])

/-- The _failed method: close, emit the failed event. -/
def emitFailed (o : Originator) (c : Cause) (s : Session) : Session × List Output :=
  (close s, [Output.evFailed o c])

/-- Options accepted by terminate(). -/
structure TermOpts where
  cause : Option Cause := none
  statusCode : Option Nat := none
  reasonPhrase : Option Phrase := none
deriving DecidableEq, Repr

/-- A status code is rejected by terminate() when outside [200, 700). -/
def invalidCode (c : Nat) : Bool := c < 200 || 700 ≤ c

/-- The cancellation half of terminate() for statuses NULL, INVITE_SENT and
1XX_RECEIVED: latch the cancel intent (or send CANCEL when a provisional
was already received), set CANCELED, and fire failed(local, CANCELED). -/
def terminateCancel (reason : Option (Nat × Phrase)) (s : Session) :
    Option Err × Session × List Output :=
  let pre : List Output :=
    if s.status = Status.oneXXReceived then [Output.sendCancel reason] else []
  let s1 :=
    if s.status = Status.oneXXReceived then s
    else { s with isCanceled := true, cancelReason := reason }
  let s2 := { s1 with status := Status.canceled }
  let r := emitFailed Originator.local_ Cause.canceled s2
  (none, r.1, pre ++ r.2)

/-- The BYE half of terminate() for WAITING_FOR_ACK and CONFIRMED: send BYE
with an optional Reason header and fire ended(local, cause).  Sending the
BYE dereferences the confirmed dialog, so a missing dialog raises. -/
def terminateBye (reason : Option (Nat × Phrase)) (cause : Cause) (s : Session) :
    Option Err × Session × List Output :=
  match s.dialog with
  | none => (some Err.typeError, s, [])
  | some _ =>
    let r := emitEnded Originator.local_ cause s
    (none, r.1, Output.sendBye reason :: r.2)

/-- The terminate(options) public operation. -/
def terminate (opts : TermOpts) (s : Session) : Option Err × Session × List Output :=
  let cause := opts.cause.getD Cause.bye
  if s.status = Status.terminated then (some Err.invalidState, s, [])
  else
    match s.status with
    | Status.null_ | Status.inviteSent | Status.oneXXReceived =>
      match opts.statusCode with
      | some c =>
        if invalidCode c then (some Err.typeError, s, [])
        else terminateCancel (some (c, opts.reasonPhrase.getD (Phrase.table c))) s
      | none => terminateCancel none s
    | Status.waitingForAck | Status.confirmed =>
      match opts.statusCode with
      | some c =>
        if invalidCode c then (some Err.typeError, s, [])
        else terminateBye (some (c, opts.reasonPhrase.getD (Phrase.table c))) cause s
      | none => terminateBye none cause s
    | _ => (none, s, [])

/-- Outcome of a _createLocalDescription call (create offer/answer followed
by setLocalDescription), as resolved by the external media engine. -/
inductive LD
  | ok
  | createFail
  | setLocalFail
deriving DecidableEq, Repr

/-- The response the remote peer eventually gives to an outgoing re-INVITE
or UPDATE sent by _sendReinvite/_sendUpdate, as seen by the request's
event handlers. -/
structure ReinviteResp where
  hasBody : Bool
  ctSdp : Bool
  sessionExpires : Option Nat
  sessionRefresher : Option Refresher
deriving DecidableEq, Repr

/-- Which RequestSender callback fires for an outgoing in-dialog request. -/
inductive RespOutcome
  | success (resp : ReinviteResp)
  | errorResp
  | timedOut
  | transportErr
  | dialogErr
deriving DecidableEq, Repr

/-- The environment of one step: outcomes of the media-engine operations the
step performs, the signaling state the engine reports, the application's
reaction to reinvite/update events, and the remote peer's response to a
request the step sends.  Each is consumed by at most one call site within
a step. -/
structure Env where
  localDesc : LD := LD.ok
  sdpVal : Nat := 0
  setRemoteOk : Bool := true
  stableOfferOk : Bool := true
  signalingStable : Bool := false
  rejectCode : Option Nat := none
  respOutcome : RespOutcome := RespOutcome.errorResp
deriving DecidableEq, Repr

/-- An incoming in-dialog (or CANCEL) request as dispatched to
receiveRequest. -/
structure IncomingRequest where
  method : Method
  body : Option Nat := none
  contentType : Option CT := none
  sessionExpires : Option Nat := none
  sessionRefresher : Option Refresher := none
deriving DecidableEq, Repr

/-- An incoming response to the initial INVITE as dispatched to
_receiveInviteResponse. -/
structure IncomingResponse where
  code : Nat
  callId : Nat := 0
  fromTag : Nat := 0
  toTag : Option Nat := none
  hasContact : Bool := true
  body : Option Nat := none
  sessionExpires : Option Nat := none
  sessionRefresher : Option Refresher := none
deriving DecidableEq, Repr

/-- Dialog construction fails on a malformed message.  Modelled from the
spec: the Dialog module is not part of the observed source; the spec
states that dialog construction can fail on a malformed message, and per
RFC 3261 12.1.1 a dialog cannot be created from a message lacking a
Contact header. -/
def dialogFails (r : IncomingResponse) : Bool := !r.hasContact

/-- The _createLocalDescription pipeline: clear rtcReady, create the local
offer or answer and apply it, then (on success) report readiness, emit the
sdp event and produce the local SDP.  The engine outcome is taken from the
environment. -/
def createLocalDescription (offer : Bool) (env : Env) (s : Session) :
    Session × List Output × Option Nat :=
  let s0 := { s with rtcReady := false }
  match env.localDesc with
  | LD.ok => ({ s0 with rtcReady := true }, [Output.evSdp], some env.sdpVal)
  | LD.createFail =>
    (s0,
     [if offer then Output.evPcCreateOfferFailed else Output.evPcCreateAnswerFailed],
     none)
  | LD.setLocalFail => ({ s0 with rtcReady := true }, [Output.evPcSetLocalFailed], none)

/-- The _setInvite2xxTimer method: arm the 2xx retransmission timer with the
initial timeout T1, capturing the 200 body. -/
def setInvite2xxTimer (body : Option Nat) (s : Session) : Session :=
  { s with invite2xx := some (T1, body) }

/-- The _setACKTimer method: arm Timer H. -/
def setACKTimer (s : Session) : Session :=
  { s with ackTimerArmed := true }

/-- The next timeout computed by the 2xx retransmission callback: double
while below T2, capping at T2. -/
def invite2xxNextTimeout (t : Nat) : Nat :=
  if t < T2 then (if t * 2 > T2 then T2 else t * 2) else t

/-- The _runSessionTimer method: mark the session timer running and arm
either the refresher callback at currentExpires * 500 ms or the expiry
watchdog at currentExpires * 1100 ms. -/
def runSessionTimer (s : Session) : Session :=
  let st := s.sessionTimers
  let expires := st.currentExpires.getD 0
  { s with
    sessionTimers :=
      { st with
        running := true
        timer :=
          some (if st.refresher then (expires * 500, true) else (expires * 1100, false)) } }

/-- Record a negotiated Session-Expires value and refresher flag and run
the session timer. -/
def adoptSessionExpires (v : Nat) (refrFlag : Bool) (s : Session) : Session :=
  runSessionTimer
    { s with
      sessionTimers :=
        { s.sessionTimers with currentExpires := some v, refresher := refrFlag } }

/-- The _handleSessionTimersInIncomingRequest method: adopt the request's
Session-Expires when at least the minimum (the refresher defaulting to
uas), else the configured default with refresher uas, then run the session
timer.  (The Session-Expires response header it appends is carried by the
enclosing 200 reply.) -/
def handleSessionTimersInIncomingRequest (sessionExpires : Option Nat)
    (sessionRefresher : Option Refresher) (s : Session) : Session :=
  if !s.sessionTimers.enabled then s
  else
    match sessionExpires with
    | some v =>
      if MIN_SESSION_EXPIRES ≤ v then
        adoptSessionExpires v (sessionRefresher.getD Refresher.uas = Refresher.uas) s
      else adoptSessionExpires s.sessionTimers.defaultExpires true s
    | none => adoptSessionExpires s.sessionTimers.defaultExpires true s

/-- The _handleSessionTimersInIncomingResponse method: as for requests, but
the refresher defaults to uac and the session is the refresher when the
negotiated refresher is uac. -/
def handleSessionTimersInIncomingResponse (sessionExpires : Option Nat)
    (sessionRefresher : Option Refresher) (s : Session) : Session :=
  if !s.sessionTimers.enabled then s
  else
    match sessionExpires with
    | some v =>
      if MIN_SESSION_EXPIRES ≤ v then
        adoptSessionExpires v (sessionRefresher.getD Refresher.uac = Refresher.uac) s
      else adoptSessionExpires s.sessionTimers.defaultExpires true s
    | none => adoptSessionExpires s.sessionTimers.defaultExpires true s

/-- The sendAnswer closure of _receiveReinvite: handle session timers, reply
200 with Contact and the answer body; on reply success transition to
WAITING_FOR_ACK and arm the 2xx retransmission and ACK timers. -/
def reinviteSendAnswer (req : IncomingRequest) (desc : Option Nat) (s : Session) :
    Session × List Output :=
  (setACKTimer (setInvite2xxTimer desc
     { handleSessionTimersInIncomingRequest req.sessionExpires req.sessionRefresher s with
       status := Status.waitingForAck }),
   [Output.reply 200 true desc])

/-- The sendAnswer closure of _receiveUpdate: handle session timers and
reply 200 with Contact and the answer body (no status transition). -/
def updateSendAnswer (req : IncomingRequest) (desc : Option Nat) (s : Session) :
    Session × List Output :=
  (handleSessionTimersInIncomingRequest req.sessionExpires req.sessionRefresher s,
   [Output.reply 200 true desc])

/-- The _processInDialogSdpOffer pipeline: emit sdp, set the remote offer
(failure replies 488 and reports the engine error), then create the local
answer (failure replies 500).  Returns the answer SDP on success. -/
def processInDialogSdpOffer (env : Env) (s : Session) :
    Session × List Output × Option Nat :=
  if !env.setRemoteOk then
    (s, [Output.evSdp, Output.reply 488 false none, Output.evPcSetRemoteFailed], none)
  else
    match env.localDesc with
    | LD.ok =>
      ((createLocalDescription false env s).1,
       Output.evSdp :: (createLocalDescription false env s).2.1,
       (createLocalDescription false env s).2.2)
    | _ =>
      ((createLocalDescription false env s).1,
       Output.evSdp :: (createLocalDescription false env s).2.1 ++
         [Output.reply 500 false none],
       none)

/-- The late-SDP (bodiless re-INVITE) negotiation: generate a fresh offer
and use it as the 200 body, replying 500 on a media failure. -/
def reinviteLateSdp (req : IncomingRequest) (env : Env) (s0 : Session) :
    Session × List Output :=
  match (createLocalDescription true env { s0 with lateSdp := true }).2.2 with
  | some sdp =>
    ((reinviteSendAnswer req (some sdp)
        (createLocalDescription true env { s0 with lateSdp := true }).1).1,
     (createLocalDescription true env { s0 with lateSdp := true }).2.1 ++
       (reinviteSendAnswer req (some sdp)
         (createLocalDescription true env { s0 with lateSdp := true }).1).2)
  | none =>
    ((createLocalDescription true env { s0 with lateSdp := true }).1,
     (createLocalDescription true env { s0 with lateSdp := true }).2.1 ++
       [Output.reply 500 false none])

/-- The SDP-carrying re-INVITE negotiation: process the offer and answer
200 on success. -/
def reinviteWithBody (req : IncomingRequest) (env : Env) (s0 : Session) :
    Session × List Output :=
  match (processInDialogSdpOffer env s0).2.2 with
  | some desc =>
    ((reinviteSendAnswer req (some desc) (processInDialogSdpOffer env s0).1).1,
     (processInDialogSdpOffer env s0).2.1 ++
       (reinviteSendAnswer req (some desc) (processInDialogSdpOffer env s0).1).2)
  | none => ((processInDialogSdpOffer env s0).1, (processInDialogSdpOffer env s0).2.1)

/-- The _receiveReinvite method (status CONFIRMED guaranteed by the caller):
emit reinvite with a reject handle; honour a rejection (an out-of-range
rejection code raises inside the application handler); otherwise negotiate
late SDP (absent body) or process the SDP offer, answering 200. -/
def receiveReinvite (req : IncomingRequest) (env : Env) (s : Session) :
    Session × List Output :=
  match env.rejectCode with
  | some c =>
    if c < 300 || 700 ≤ c then (s, [Output.evReinvite, Output.appErr])
    else (s, [Output.evReinvite, Output.reply c false none])
  | none =>
    match req.body with
    | none =>
      ((reinviteLateSdp req env { s with lateSdp := false }).1,
       Output.evReinvite :: (reinviteLateSdp req env { s with lateSdp := false }).2)
    | some _ =>
      if req.contentType ≠ some CT.sdp then
        ({ s with lateSdp := false }, [Output.evReinvite, Output.reply 415 false none])
      else
        ((reinviteWithBody req env { s with lateSdp := false }).1,
         Output.evReinvite :: (reinviteWithBody req env { s with lateSdp := false }).2)

/-- The SDP-carrying UPDATE negotiation: process the offer and answer 200
on success. -/
def updateWithBody (req : IncomingRequest) (env : Env) (s : Session) :
    Session × List Output :=
  match (processInDialogSdpOffer env s).2.2 with
  | some desc =>
    ((updateSendAnswer req (some desc) (processInDialogSdpOffer env s).1).1,
     (processInDialogSdpOffer env s).2.1 ++
       (updateSendAnswer req (some desc) (processInDialogSdpOffer env s).1).2)
  | none => ((processInDialogSdpOffer env s).1, (processInDialogSdpOffer env s).2.1)

/-- The _receiveUpdate method (status CONFIRMED guaranteed by the caller):
emit update with a reject handle; honour a rejection; an absent body is
answered 200 without body; otherwise process the SDP offer and answer. -/
def receiveUpdate (req : IncomingRequest) (env : Env) (s : Session) :
    Session × List Output :=
  match env.rejectCode with
  | some c =>
    if c < 300 || 700 ≤ c then (s, [Output.evUpdateEv, Output.appErr])
    else (s, [Output.evUpdateEv, Output.reply c false none])
  | none =>
    match req.body with
    | none =>
      ((updateSendAnswer req none s).1,
       Output.evUpdateEv :: (updateSendAnswer req none s).2)
    | some _ =>
      if req.contentType ≠ some CT.sdp then
        (s, [Output.evUpdateEv, Output.reply 415 false none])
      else
        ((updateWithBody req env s).1,
         Output.evUpdateEv :: (updateWithBody req env s).2)

/-- The status and timer mutations the ACK handler performs upon leaving
WAITING_FOR_ACK: confirm and clear the ACK and 2xx timers. -/
def ackConfirm (s : Session) : Session :=
  { s with status := Status.confirmed, ackTimerArmed := false, invite2xx := none }

/-- The ACK branch of receiveRequest, after the ackReceived emission and the
WAITING_FOR_ACK guard: confirm the session, clear the ACK and 2xx timers,
and in late-SDP mode apply the ACK's answer (terminating on a missing body
or a rejected description). -/
def receiveAck (req : IncomingRequest) (env : Env) (s : Session) :
    Session × List Output :=
  if s.lateSdp then
    match req.body with
    | none =>
      (terminate { cause := some Cause.missingSdp, statusCode := some 400 }
        (ackConfirm s)).2
    | some _ =>
      if env.setRemoteOk then
        if !s.isConfirmedFlag then
          ({ ackConfirm s with isConfirmedFlag := true },
           [Output.evSdp, Output.evConfirmedEv Originator.remote])
        else (ackConfirm s, [Output.evSdp])
      else
        ((terminate { cause := some Cause.badMediaDescription, statusCode := some 488 }
            (ackConfirm s)).2.1,
         Output.evSdp ::
           (terminate { cause := some Cause.badMediaDescription, statusCode := some 488 }
             (ackConfirm s)).2.2 ++ [Output.evPcSetRemoteFailed])
  else
    if !s.isConfirmedFlag then
      ({ ackConfirm s with isConfirmedFlag := true },
       [Output.evConfirmedEv Originator.remote])
    else (ackConfirm s, [])

/-- The receiveRequest method: dispatch an incoming CANCEL or in-dialog
request on the current status. -/
def receiveRequest (req : IncomingRequest) (env : Env) (s : Session) :
    Session × List Output :=
  match req.method with
  | Method.cancel =>
    if s.status = Status.waitingForAnswer || s.status = Status.answered then
      let s1 := { s with status := Status.canceled }
      let r := emitFailed Originator.remote Cause.canceled s1
      (r.1, Output.replyToInvite 487 :: r.2)
    else (s, [])
  | Method.ack =>
    if s.status ≠ Status.waitingForAck then (s, [Output.evAckReceived])
    else
      let r := receiveAck req env s
      (r.1, Output.evAckReceived :: r.2)
  | Method.bye =>
    if s.status = Status.confirmed || s.status = Status.waitingForAck then
      let r := emitEnded Originator.remote Cause.bye s
      (r.1, Output.evByeReceived :: Output.reply 200 false none :: r.2)
    else (s, [Output.reply 403 false none])
  | Method.invite =>
    if s.status = Status.confirmed then receiveReinvite req env s
    else (s, [Output.reply 403 false none])
  | Method.update =>
    if s.status = Status.confirmed then receiveUpdate req env s
    else (s, [Output.reply 403 false none])
  | Method.info =>
    if s.status = Status.oneXXReceived || s.status = Status.waitingForAnswer ||
       s.status = Status.answered || s.status = Status.waitingForAck ||
       s.status = Status.confirmed then
      match req.contentType with
      | some CT.dtmfRelay => (s, [Output.evNewDTMF])
      | some _ => (s, [Output.evNewInfo])
      | none => (s, [Output.reply 415 false none])
    else (s, [Output.reply 403 false none])
  | Method.other => (s, [Output.reply 501 false none])

/-- Arguments of connect(): whether a target argument was given and whether
it normalises to a valid URI, the optional data attachment, the optional
Session-Expires override and the SDP to offer. -/
structure ConnectArgs where
  targetGiven : Bool := true
  targetValid : Bool := true
  data : Option Nat := none
  sessionTimersExpires : Option Nat := none
  sdp : Nat := 0
  fromTag : Nat := 0
deriving DecidableEq, Repr

/-- The defaultExpires adjustment of connect() for a decimal
sessionTimersExpires option on a session-timers-enabled session. -/
def connectAdjustExpires (args : ConnectArgs) (s : Session) : Session :=
  if s.sessionTimers.enabled then
    match args.sessionTimersExpires with
    | some v =>
      { s with
        sessionTimers :=
          { s.sessionTimers with
            defaultExpires :=
              if MIN_SESSION_EXPIRES ≤ v then v else SESSION_EXPIRES } }
    | none => s
  else s

/-- The successful body of connect() after validation, including the
synchronous part of _sendInitialRequest (run-to-completion): adjust the
session-timer default, pick the from tag, emit newRTCSession and
connecting, then (unless canceled or terminated meanwhile) transition to
INVITE_SENT, emit sending and send the INVITE. -/
def connectProceed (args : ConnectArgs) (s : Session) : Session × List Output :=
  if ({ connectAdjustExpires args s with fromTag := some args.fromTag } : Session).isCanceled
      || ({ connectAdjustExpires args s with
            fromTag := some args.fromTag } : Session).status = Status.terminated then
    ({ connectAdjustExpires args s with fromTag := some args.fromTag },
     [Output.evNewRTCSession, Output.evConnecting])
  else
    ({ connectAdjustExpires args s with
       fromTag := some args.fromTag, status := Status.inviteSent },
     [Output.evNewRTCSession, Output.evConnecting, Output.evSending,
      Output.sendInitialInvite])

/-- The data assignment connect() performs before any validation. -/
def connectData (args : ConnectArgs) (s : Session) : Session :=
  { s with data := args.data.getD s.data }

/-- The connect(target, sdp, options) public operation: assign the data
attachment, then validate the target and the NULL status before
proceeding. -/
def connect (args : ConnectArgs) (s : Session) : Option Err × Session × List Output :=
  if !args.targetGiven then (some Err.typeError, connectData args s, [])
  else if (connectData args s).status ≠ Status.null_ then
    (some Err.invalidState, connectData args s, [])
  else if !args.targetValid then (some Err.typeError, connectData args s, [])
  else (none, connectProceed args (connectData args s))

/-- Whether an early dialog with the UAC dialog id of the response is
already registered. -/
def hasEarlyDialog (r : IncomingResponse) (s : Session) : Bool :=
  s.earlyDialogs.any fun d =>
    d.callId = r.callId && d.localTag = r.fromTag && some d.remoteTag = r.toTag

/-- The dialog constructed from a UAC response. -/
def confirmedDialogOf (r : IncomingResponse) : Dialog :=
  { callId := r.callId, localTag := r.fromTag, remoteTag := r.toTag.getD 0,
    uacPendingReply := false, uasPendingReply := false }

/-- The tag assignment of the confirmed _createDialog half. -/
def withUACTags (r : IncomingResponse) (s : Session) : Session :=
  { s with fromTag := some r.fromTag, toTag := r.toTag }

/-- The early half of _createDialog for a UAC response: an existing early
dialog with the same id is a success no-op; otherwise construct the dialog
(firing failed(remote, INTERNAL_ERROR) on construction failure) and
register it. -/
def createEarlyDialogUAC (r : IncomingResponse) (s : Session) :
    Bool × Session × List Output :=
  if hasEarlyDialog r s then (true, s, [])
  else if dialogFails r then
    (false, (emitFailed Originator.remote Cause.internalError s).1,
     (emitFailed Originator.remote Cause.internalError s).2)
  else
    (true, { s with earlyDialogs := s.earlyDialogs ++ [confirmedDialogOf r] }, [])

/-- The confirmed half of _createDialog for a UAC response: record the tags;
promote a matching early dialog, or construct a confirmed dialog (firing
failed(remote, INTERNAL_ERROR) on construction failure). -/
def createConfirmedDialogUAC (r : IncomingResponse) (s : Session) :
    Bool × Session × List Output :=
  if hasEarlyDialog r s then
    (true,
     { withUACTags r s with
       dialog := some (confirmedDialogOf r)
       earlyDialogs :=
         s.earlyDialogs.filter fun e =>
           !(e.callId = r.callId && e.localTag = r.fromTag && some e.remoteTag = r.toTag) },
     [])
  else if dialogFails r then
    (false, (emitFailed Originator.remote Cause.internalError (withUACTags r s)).1,
     (emitFailed Originator.remote Cause.internalError (withUACTags r s)).2)
  else (true, { withUACTags r s with dialog := some (confirmedDialogOf r) }, [])

/-- The _acceptAndTerminate method: ensure a dialog exists (creating one
from the unwanted 2xx, which fires failed(INTERNAL_ERROR) on construction
failure), ACK and BYE it with an optional Reason header, and set the
status to TERMINATED without running the _close cleanup. -/
def acceptAndTerminate (r : IncomingResponse) (reason : Option (Nat × Phrase))
    (s : Session) : Session × List Output :=
  match s.dialog with
  | some _ =>
    ({ s with status := Status.terminated }, [Output.sendAck, Output.sendBye reason])
  | none =>
    if (createConfirmedDialogUAC r s).1 then
      ({ (createConfirmedDialogUAC r s).2.1 with status := Status.terminated },
       (createConfirmedDialogUAC r s).2.2 ++ [Output.sendAck, Output.sendBye reason])
    else
      ({ (createConfirmedDialogUAC r s).2.1 with status := Status.terminated },
       (createConfirmedDialogUAC r s).2.2)

/-- The status-code-to-cause mapping of Utils.sipErrorCause.  Modelled from
the spec: the Utils module is not part of the observed source; the spec
gives the standard mapping (404 to NOT_FOUND, 486/600 to BUSY, 301/302 to
REDIRECTED, 408 to REQUEST_TIMEOUT, 480/410 to UNAVAILABLE, other final
codes to REJECTED). -/
def sipErrorCause (code : Nat) : Cause :=
  if code = 404 then Cause.notFound
  else if code = 486 || code = 600 then Cause.busy
  else if code = 301 || code = 302 then Cause.redirected
  else if code = 408 then Cause.requestTimeout
  else if code = 480 || code = 410 then Cause.unavailable
  else if code = 484 then Cause.addressIncomplete
  else if code = 488 || code = 606 then Cause.incompatibleSdp
  else if code = 401 || code = 407 then Cause.authenticationError
  else Cause.rejected

/-- The progress part of the 1xx branch: transition to 1XX_RECEIVED, emit
progress, and apply an SDP answer if present (engine failure is reported
but not fatal). -/
def receive1xxProgress (r : IncomingResponse) (env : Env) (s : Session) :
    Session × List Output :=
  match r.body with
  | none => ({ s with status := Status.oneXXReceived }, [Output.evProgress])
  | some _ =>
    if env.setRemoteOk then
      ({ s with status := Status.oneXXReceived }, [Output.evProgress, Output.evSdp])
    else
      ({ s with status := Status.oneXXReceived },
       [Output.evProgress, Output.evSdp, Output.evPcSetRemoteFailed])

/-- The 1xx (non-100) branch of _receiveInviteResponse: ignore without a to
tag; create an early dialog when Contact is present (construction failure
fails the session); then progress. -/
def receive1xx (r : IncomingResponse) (env : Env) (s : Session) :
    Session × List Output :=
  match r.toTag with
  | none => (s, [])
  | some _ =>
    if r.hasContact then
      if (createEarlyDialogUAC r s).1 then
        ((receive1xxProgress r env (createEarlyDialogUAC r s).2.1).1,
         (createEarlyDialogUAC r s).2.2 ++
           (receive1xxProgress r env (createEarlyDialogUAC r s).2.1).2)
      else ((createEarlyDialogUAC r s).2.1, (createEarlyDialogUAC r s).2.2)
    else receive1xxProgress r env s

/-- An accept-and-terminate followed by a failed event, the common failure
shape of the 2xx INVITE-response paths. -/
def acceptTerminateFail (r : IncomingResponse) (reason : Option (Nat × Phrase))
    (o : Originator) (c : Cause) (s : Session) : Session × List Output :=
  ((emitFailed o c (acceptAndTerminate r reason s).1).1,
   (acceptAndTerminate r reason s).2 ++
     (emitFailed o c (acceptAndTerminate r reason s).1).2)

/-- The success continuation of the 2xx negotiation chain: handle session
timers, record the start time, accept, ACK and confirm. -/
def receive2xxMediaOk (r : IncomingResponse) (s : Session) : Session × List Output :=
  ({ handleSessionTimersInIncomingResponse r.sessionExpires r.sessionRefresher s with
     startTimeSet := true, isConfirmedFlag := true },
   [Output.evAccepted Originator.remote, Output.sendAck,
    Output.evConfirmedEv Originator.local_])

/-- The second stage of the 2xx negotiation chain: apply the remote answer;
failure accepts-and-terminates with 488 and fails BAD_MEDIA_DESCRIPTION. -/
def receive2xxStep2 (r : IncomingResponse) (env : Env) (s : Session) :
    Session × List Output :=
  if env.setRemoteOk then receive2xxMediaOk r s
  else
    ((acceptTerminateFail r (some (488, Phrase.notAcceptableHere)) Originator.remote
        Cause.badMediaDescription s).1,
     (acceptTerminateFail r (some (488, Phrase.notAcceptableHere)) Originator.remote
       Cause.badMediaDescription s).2 ++ [Output.evPcSetRemoteFailed])

/-- The 2xx negotiation chain: with a stable signaling state a failing local
re-offer accepts-and-terminates with 500 and fails WEBRTC_ERROR, but the
chain continues into the second stage regardless. -/
def receive2xxChain (r : IncomingResponse) (env : Env) (s : Session) :
    Session × List Output :=
  if env.signalingStable && !env.stableOfferOk then
    ((receive2xxStep2 r env
        (acceptTerminateFail r (some (500, Phrase.errorString)) Originator.local_
          Cause.webrtcError s).1).1,
     (acceptTerminateFail r (some (500, Phrase.errorString)) Originator.local_
       Cause.webrtcError s).2 ++
       (receive2xxStep2 r env
         (acceptTerminateFail r (some (500, Phrase.errorString)) Originator.local_
           Cause.webrtcError s).1).2)
  else receive2xxStep2 r env s

/-- The 2xx branch of _receiveInviteResponse: confirm the status; a missing
body is accepted-and-terminated (400, MISSING_SDP) and failed; otherwise
create the confirmed dialog (construction failure fails the session) and
run the negotiation chain. -/
def receive2xx (r : IncomingResponse) (env : Env) (s : Session) :
    Session × List Output :=
  match r.body with
  | none =>
    acceptTerminateFail r (some (400, Phrase.causeText Cause.missingSdp))
      Originator.remote Cause.badMediaDescription { s with status := Status.confirmed }
  | some _ =>
    if (createConfirmedDialogUAC r { s with status := Status.confirmed }).1 then
      ((receive2xxChain r env
          (createConfirmedDialogUAC r { s with status := Status.confirmed }).2.1).1,
       Output.evSdp ::
         (createConfirmedDialogUAC r { s with status := Status.confirmed }).2.2 ++
         (receive2xxChain r env
           (createConfirmedDialogUAC r { s with status := Status.confirmed }).2.1).2)
    else
      ((createConfirmedDialogUAC r { s with status := Status.confirmed }).2.1,
       (createConfirmedDialogUAC r { s with status := Status.confirmed }).2.2)

/-- The part of _receiveInviteResponse after the dialog retransmission and
fork gate: latched-cancel handling, the status guard, and the dispatch by
status-code class. -/
def receiveInviteResponseNoDialog (r : IncomingResponse) (env : Env) (s : Session) :
    Session × List Output :=
  if s.isCanceled then
    if 100 ≤ r.code && r.code < 200 then (s, [Output.sendCancel s.cancelReason])
    else if 200 ≤ r.code && r.code < 299 then acceptAndTerminate r none s
    else (s, [])
  else if s.status ≠ Status.inviteSent && s.status ≠ Status.oneXXReceived then (s, [])
  else if r.code = 100 then ({ s with status := Status.oneXXReceived }, [])
  else if 100 ≤ r.code && r.code ≤ 199 then receive1xx r env s
  else if 200 ≤ r.code && r.code ≤ 299 then receive2xx r env s
  else emitFailed Originator.remote (sipErrorCause r.code) s

/-- The _receiveInviteResponse method: 2xx retransmission and fork handling
on an existing dialog, latched-cancel handling, then dispatch by status
class for statuses INVITE_SENT and 1XX_RECEIVED. -/
def receiveInviteResponse (r : IncomingResponse) (env : Env) (s : Session) :
    Session × List Output :=
  match s.dialog with
  | some d =>
    if 200 ≤ r.code && r.code ≤ 299 then
      if d.callId = r.callId && d.localTag = r.fromTag && some d.remoteTag = r.toTag then
        (s, [Output.sendAck])
      else if dialogFails r then (s, [])
      else (s, [Output.sendAck, Output.sendBye none])
    else receiveInviteResponseNoDialog r env s
  | none => receiveInviteResponseNoDialog r env s

/-- The onFailed path of _sendReinvite/_sendUpdate: when invoked with the
renegotiate() event handlers, terminate with WEBRTC_ERROR / 500 / "Media
Renegotiation Failed"; with no handlers (session-timer refresh) do
nothing.  An InvalidStateError thrown by terminate is swallowed by the
enclosing promise chain. -/
def reinviteFail (handlersOn : Bool) (s : Session) : Session × List Output :=
  if handlersOn then
    (terminate
      { cause := some Cause.webrtcError
        statusCode := some 500
        reasonPhrase := some Phrase.mediaRenegotiationFailed } s).2
  else (s, [])

/-- The onTransportError session callback: unless terminated, terminate
with CONNECTION_ERROR / 500. -/
def onTransportErrorF (s : Session) : Session × List Output :=
  if s.status = Status.terminated then (s, [])
  else
    (terminate
      { cause := some Cause.connectionError
        statusCode := some 500
        reasonPhrase := some (Phrase.causeText Cause.connectionError) } s).2

/-- The onRequestTimeout session callback: unless terminated, terminate
with REQUEST_TIMEOUT / 408. -/
def onRequestTimeoutF (s : Session) : Session × List Output :=
  if s.status = Status.terminated then (s, [])
  else
    (terminate
      { cause := some Cause.requestTimeout
        statusCode := some 408
        reasonPhrase := some (Phrase.causeText Cause.requestTimeout) } s).2

/-- The onDialogError session callback: unless terminated, terminate with
DIALOG_ERROR / 500. -/
def onDialogErrorF (s : Session) : Session × List Output :=
  if s.status = Status.terminated then (s, [])
  else
    (terminate
      { cause := some Cause.dialogError
        statusCode := some 500
        reasonPhrase := some (Phrase.causeText Cause.dialogError) } s).2

/-- Applying the SDP answer of a refresh response: success emits sdp;
failure runs onFailed and reports the engine error. -/
def reinviteAnswerApply (handlersOn : Bool) (env : Env) (s : Session) :
    Session × List Output :=
  if env.setRemoteOk then (s, [Output.evSdp])
  else
    ((reinviteFail handlersOn s).1,
     Output.evSdp :: (reinviteFail handlersOn s).2 ++ [Output.evPcSetRemoteFailed])

/-- The onSuccessResponse handler of _sendReinvite: unless terminated, ACK
the 2xx, handle session timers, require an SDP answer (its absence or a
rejected remote description runs onFailed), and on success hand the
response to the succeeded callback. -/
def reinviteOnSucceeded (handlersOn : Bool) (resp : ReinviteResp) (env : Env)
    (s : Session) : Session × List Output :=
  if s.status = Status.terminated then (s, [])
  else if !resp.hasBody || !resp.ctSdp then
    ((reinviteFail handlersOn
        (handleSessionTimersInIncomingResponse resp.sessionExpires
          resp.sessionRefresher s)).1,
     Output.sendAck ::
       (reinviteFail handlersOn
         (handleSessionTimersInIncomingResponse resp.sessionExpires
           resp.sessionRefresher s)).2)
  else
    ((reinviteAnswerApply handlersOn env
        (handleSessionTimersInIncomingResponse resp.sessionExpires
          resp.sessionRefresher s)).1,
     Output.sendAck ::
       (reinviteAnswerApply handlersOn env
         (handleSessionTimersInIncomingResponse resp.sessionExpires
           resp.sessionRefresher s)).2)

/-- Dispatch on the RequestSender callback of an outgoing re-INVITE. -/
def reinviteRespDispatch (handlersOn : Bool) (env : Env) (s : Session) :
    Session × List Output :=
  match env.respOutcome with
  | RespOutcome.success resp => reinviteOnSucceeded handlersOn resp env s
  | RespOutcome.errorResp => reinviteFail handlersOn s
  | RespOutcome.timedOut => onRequestTimeoutF s
  | RespOutcome.transportErr => onTransportErrorF s
  | RespOutcome.dialogErr => onDialogErrorF s

/-- The _sendReinvite method: create a local offer (failure runs onFailed),
emit sdp, send the re-INVITE through the confirmed dialog (a missing
dialog raises inside the chain and runs onFailed), then dispatch on the
response outcome. -/
def sendReinviteF (handlersOn : Bool) (env : Env) (s : Session) :
    Session × List Output :=
  match (createLocalDescription true env s).2.2 with
  | none =>
    ((reinviteFail handlersOn (createLocalDescription true env s).1).1,
     (createLocalDescription true env s).2.1 ++
       (reinviteFail handlersOn (createLocalDescription true env s).1).2)
  | some _ =>
    match (createLocalDescription true env s).1.dialog with
    | none =>
      ((reinviteFail handlersOn (createLocalDescription true env s).1).1,
       (createLocalDescription true env s).2.1 ++ [Output.evSdp] ++
         (reinviteFail handlersOn (createLocalDescription true env s).1).2)
    | some _ =>
      ((reinviteRespDispatch handlersOn env (createLocalDescription true env s).1).1,
       (createLocalDescription true env s).2.1 ++
         [Output.evSdp, Output.sendReinviteReq] ++
         (reinviteRespDispatch handlersOn env (createLocalDescription true env s).1).2)

/-- The onSuccessResponse handler of _sendUpdate: unless terminated, handle
session timers; with an SDP offer out, require an SDP answer as for
re-INVITE (no ACK is sent for UPDATE). -/
def updateOnSucceeded (sdpOffer handlersOn : Bool) (resp : ReinviteResp) (env : Env)
    (s : Session) : Session × List Output :=
  if s.status = Status.terminated then (s, [])
  else if !sdpOffer then
    (handleSessionTimersInIncomingResponse resp.sessionExpires resp.sessionRefresher s,
     [])
  else if !resp.hasBody || !resp.ctSdp then
    reinviteFail handlersOn
      (handleSessionTimersInIncomingResponse resp.sessionExpires resp.sessionRefresher s)
  else
    reinviteAnswerApply handlersOn env
      (handleSessionTimersInIncomingResponse resp.sessionExpires resp.sessionRefresher s)

/-- Dispatch on the RequestSender callback of an outgoing UPDATE. -/
def updateRespDispatch (sdpOffer handlersOn : Bool) (env : Env) (s : Session) :
    Session × List Output :=
  match env.respOutcome with
  | RespOutcome.success resp => updateOnSucceeded sdpOffer handlersOn resp env s
  | RespOutcome.errorResp => reinviteFail handlersOn s
  | RespOutcome.timedOut => onRequestTimeoutF s
  | RespOutcome.transportErr => onTransportErrorF s
  | RespOutcome.dialogErr => onDialogErrorF s

/-- The _sendUpdate method: with an SDP offer, create it (failure runs
onFailed) and send UPDATE with the SDP; without, send a bodiless UPDATE;
then dispatch on the response outcome. -/
def sendUpdateF (sdpOffer handlersOn : Bool) (env : Env) (s : Session) :
    Session × List Output :=
  if sdpOffer then
    match (createLocalDescription true env s).2.2 with
    | none =>
      ((reinviteFail handlersOn (createLocalDescription true env s).1).1,
       (createLocalDescription true env s).2.1 ++
         (reinviteFail handlersOn (createLocalDescription true env s).1).2)
    | some _ =>
      match (createLocalDescription true env s).1.dialog with
      | none =>
        ((reinviteFail handlersOn (createLocalDescription true env s).1).1,
         (createLocalDescription true env s).2.1 ++ [Output.evSdp] ++
           (reinviteFail handlersOn (createLocalDescription true env s).1).2)
      | some _ =>
        ((updateRespDispatch true handlersOn env (createLocalDescription true env s).1).1,
         (createLocalDescription true env s).2.1 ++
           [Output.evSdp, Output.sendUpdateReq true] ++
           (updateRespDispatch true handlersOn env
             (createLocalDescription true env s).1).2)
  else
    match s.dialog with
    | none => reinviteFail handlersOn s
    | some _ =>
      ((updateRespDispatch false handlersOn env s).1,
       Output.sendUpdateReq false :: (updateRespDispatch false handlersOn env s).2)

/-- The _isReadyToReOffer method: the peer connection is ready, a confirmed
dialog exists, and no INVITE/UPDATE transaction is pending on it. -/
def isReadyToReOffer (s : Session) : Bool :=
  s.rtcReady &&
    match s.dialog with
    | none => false
    | some d => !(d.uacPendingReply || d.uasPendingReply)

/-- The renegotiate(options, done) public operation: false unless the status
is WAITING_FOR_ACK or CONFIRMED and the session is ready to re-offer;
otherwise send UPDATE+SDP or re-INVITE+SDP with handlers that terminate
the session with WEBRTC_ERROR / 500 on failure, and return true. -/
def renegotiate (useUpdate : Bool) (env : Env) (s : Session) :
    Bool × Session × List Output :=
  if s.status ≠ Status.waitingForAck && s.status ≠ Status.confirmed then (false, s, [])
  else if !isReadyToReOffer s then (false, s, [])
  else if useUpdate then
    let r := sendUpdateF true true env s
    (true, r.1, r.2)
  else
    let r := sendReinviteF true env s
    (true, r.1, r.2)

/-- A character allowed in a DTMF tone string: [0-9A-DR#*,],
case-insensitive. -/
def isToneChar (c : Char) : Bool :=
  (Char.ofNat 48 ≤ c && c ≤ Char.ofNat 57) ||
  (Char.ofNat 65 ≤ c && c ≤ Char.ofNat 68) ||
  (Char.ofNat 97 ≤ c && c ≤ Char.ofNat 100) ||
  c = Char.ofNat 82 || c = Char.ofNat 114 ||
  c = Char.ofNat 35 || c = Char.ofNat 42 || c = Char.ofNat 44

/-- The comma DTMF character (inserts a 2 s pause, sends no INFO). -/
def dtmfComma : Char := Char.ofNat 44

/-- A JavaScript number argument: its magnitude and whether Utils.isDecimal
accepts it. -/
structure JsNum where
  val : Nat
  decimal : Bool
deriving DecidableEq, Repr

/-- Options accepted by sendDTMF(). -/
structure DtmfOpts where
  duration : Option JsNum := none
  interToneGap : Option JsNum := none
deriving DecidableEq, Repr

/-- The duration validation and clamping of sendDTMF; none means the
TypeError for a non-decimal value. -/
def dtmfDurationOf : Option JsNum → Option Nat
  | none => some DTMF_DEFAULT_DURATION
  | some d =>
    if !d.decimal then none
    else
      some
        (if d.val < DTMF_MIN_DURATION then DTMF_MIN_DURATION
         else if DTMF_MAX_DURATION < d.val then DTMF_MAX_DURATION
         else d.val)

/-- The inter-tone gap validation and clamping of sendDTMF; none means the
TypeError for a non-decimal value. -/
def dtmfGapOf : Option JsNum → Option Nat
  | none => some DTMF_DEFAULT_INTER_TONE_GAP
  | some g =>
    if !g.decimal then none
    else
      some
        (if g.val < DTMF_MIN_INTER_TONE_GAP then DTMF_MIN_INTER_TONE_GAP else g.val)

/-- One execution of the _sendDTMF closure: stop (dropping the queue) when
terminated, queue empty or exhausted; otherwise consume the next tone,
pausing on a comma or issuing an INFO for the tone (DTMF.send; the INFO
emission is modelled from the spec, the DTMF module not being part of the
observed source).  A failed INFO drops the rest of the queue. -/
def dtmfFireCore (infoOk : Bool) (s : Session) : Session × List Output :=
  match s.tones with
  | none => (s, [])
  | some ts =>
    if s.status = Status.terminated || ts.length ≤ s.tonePos then
      ({ s with tones := none }, [])
    else if ts.getD s.tonePos dtmfComma = dtmfComma then
      ({ s with tonePos := s.tonePos + 1 }, [])
    else if infoOk then
      ({ s with tonePos := s.tonePos + 1 },
       [Output.dtmfInfo (ts.getD s.tonePos dtmfComma)])
    else
      ({ s with tonePos := s.tonePos + 1, tones := none },
       [Output.dtmfInfo (ts.getD s.tonePos dtmfComma)])

/-- Starting a DTMF send run: install the queue and the clamped timing and
run the _sendDTMF closure once (the synchronous first-tone send). -/
def sendDTMFStart (ts : List Char) (dur gap : Nat) (infoOk : Bool) (s : Session) :
    Session × List Output :=
  dtmfFireCore infoOk
    { s with
      tones := some ts, tonePos := 0, dtmfDuration := dur, dtmfInterToneGap := gap }

/-- The sendDTMF(tones, options) public operation: validate status, tones,
duration and gap; append to a running queue, or start a queue and send the
first tone immediately. -/
def sendDTMF (tones : Option (List Char)) (opts : DtmfOpts) (infoOk : Bool)
    (s : Session) : Option Err × Session × List Output :=
  match tones with
  | none => (some Err.typeError, s, [])
  | some ts =>
    if s.status ≠ Status.confirmed && s.status ≠ Status.waitingForAck then
      (some Err.invalidState, s, [])
    else if ts.isEmpty || !ts.all isToneChar then (some Err.typeError, s, [])
    else
      match dtmfDurationOf opts.duration, dtmfGapOf opts.interToneGap with
      | none, _ => (some Err.typeError, s, [])
      | some _, none => (some Err.typeError, s, [])
      | some dur, some gap =>
        match s.tones with
        | some cur => (none, { s with tones := some (cur ++ ts) }, [])
        | none => (none, sendDTMFStart ts dur gap infoOk s)

/-- The sendInfo(contentType, body, options) public operation: status check,
then an in-dialog INFO (the Info module send; modelled from the spec). -/
def sendInfoOp (s : Session) : Option Err × Session × List Output :=
  if s.status ≠ Status.confirmed && s.status ≠ Status.waitingForAck then
    (some Err.invalidState, s, [])
  else (none, s, [Output.sendInfoReq])

/-- The sendRequest(method, options) public operation: proxy to the
confirmed dialog (raising on a missing dialog). -/
def sendRequestOp (m : Method) (s : Session) : Option Err × Session × List Output :=
  match s.dialog with
  | none => (some Err.typeError, s, [])
  | some _ => (none, s, [Output.sendGeneric m])

/-- The invite2xxRetransmission timer callback: outside WAITING_FOR_ACK it
returns without rescheduling; otherwise it replies 200 with Contact and
the captured body and re-arms itself with the doubled (T2-capped)
timeout. -/
def fireInvite2xx (s : Session) : Session × List Output :=
  match s.invite2xx with
  | none => (s, [])
  | some (t, b) =>
    if s.status ≠ Status.waitingForAck then ({ s with invite2xx := none }, [])
    else
      ({ s with invite2xx := some (invite2xxNextTimeout t, b) },
       [Output.reply 200 true b])

/-- The Timer H callback (_setACKTimer): if still WAITING_FOR_ACK, clear the
2xx retransmission timer, send BYE and fire ended(remote, NO_ACK). -/
def fireAckTimer (s : Session) : Session × List Output :=
  if !s.ackTimerArmed then (s, [])
  else if s.status = Status.waitingForAck then
    match s.dialog with
    | none => ({ s with ackTimerArmed := false, invite2xx := none }, [])
    | some _ =>
      ((emitEnded Originator.remote Cause.noAck
          { s with ackTimerArmed := false, invite2xx := none }).1,
       Output.sendBye none ::
         (emitEnded Originator.remote Cause.noAck
           { s with ackTimerArmed := false, invite2xx := none }).2)
  else ({ s with ackTimerArmed := false }, [])

/-- A fired (and therefore disarmed) session timer. -/
def sessTimerDisarm (s : Session) : Session :=
  { s with sessionTimers := { s.sessionTimers with timer := none } }

/-- The session-timer callback (_runSessionTimer): the refresher callback
issues a refresh with the configured method unless terminated; the expiry
watchdog terminates with REQUEST_TIMEOUT / 408 / "Session Timer Expired"
unless terminated. -/
def fireSessionTimer (env : Env) (s : Session) : Session × List Output :=
  match s.sessionTimers.timer with
  | none => (s, [])
  | some (_, isRefresh) =>
    if s.status = Status.terminated then (sessTimerDisarm s, [])
    else if isRefresh then
      if s.sessionTimers.refreshMethod = Method.update then
        sendUpdateF false false env (sessTimerDisarm s)
      else sendReinviteF false env (sessTimerDisarm s)
    else
      (terminate
        { cause := some Cause.requestTimeout
          statusCode := some 408
          reasonPhrase := some Phrase.sessionTimerExpired } (sessTimerDisarm s)).2

/-- Initialisation of an incoming session.  Modelled from the spec: the
init_incoming path of the repository is not part of the observed source;
per the spec an incoming INVITE creates a session that reaches
WAITING_FOR_ANSWER, storing the initial request (body and Session-Expires)
for answer(). -/
def initIncoming (reqBody : Option Nat) (reqExpires : Option Nat)
    (refr : Option Refresher) (s : Session) : Session × List Output :=
  if s.status = Status.null_ then
    ({ s with
       status := Status.waitingForAnswer
       initReqBody := reqBody
       initReqSessionExpires := reqExpires
       initReqSessionRefresher := refr },
     [Output.evNewRTCSession])
  else (s, [])

/-- The answer() public operation.  Modelled from the spec: answer() is not
part of the observed source; per the spec it is allowed only in
WAITING_FOR_ANSWER, enters late-SDP mode when the INVITE had no body,
generates the SDP answer (or offer) via the queue, creates the UAS dialog,
handles session timers of the initial request, replies 200 and transitions
to WAITING_FOR_ACK arming the 2xx retransmission and ACK timers; a media
failure replies 500 and fails with WEBRTC_ERROR. -/
def answerOp (env : Env) (s : Session) : Option Err × Session × List Output :=
  if s.status ≠ Status.waitingForAnswer then (some Err.invalidState, s, [])
  else
    match (createLocalDescription s.initReqBody.isNone env
        { s with status := Status.answered, lateSdp := s.initReqBody.isNone }).2.2 with
    | none =>
      (none,
       (emitFailed Originator.local_ Cause.webrtcError
          (createLocalDescription s.initReqBody.isNone env
            { s with
              status := Status.answered
              lateSdp := s.initReqBody.isNone }).1).1,
       (createLocalDescription s.initReqBody.isNone env
          { s with
            status := Status.answered
            lateSdp := s.initReqBody.isNone }).2.1 ++
         [Output.reply 500 false none] ++
         (emitFailed Originator.local_ Cause.webrtcError
           (createLocalDescription s.initReqBody.isNone env
             { s with
               status := Status.answered
               lateSdp := s.initReqBody.isNone }).1).2)
    | some sdp =>
      (none,
       setACKTimer (setInvite2xxTimer (some sdp)
         { handleSessionTimersInIncomingRequest s.initReqSessionExpires
             s.initReqSessionRefresher
             { (createLocalDescription s.initReqBody.isNone env
                 { s with
                   status := Status.answered
                   lateSdp := s.initReqBody.isNone }).1 with
               dialog := some
                 { callId := 0, localTag := 0, remoteTag := 0,
                   uacPendingReply := false, uasPendingReply := false } } with
           status := Status.waitingForAck }),
       (createLocalDescription s.initReqBody.isNone env
          { s with
            status := Status.answered
            lateSdp := s.initReqBody.isNone }).2.1 ++
         [Output.reply 200 true (some sdp)])

/-- One step of a session trace: a public operation, an incoming request or
response, or a timer firing, each with the environment outcomes its
handling consumes. -/
inductive Step
  | connectS (args : ConnectArgs)
  | initIncomingS (reqBody : Option Nat) (reqExpires : Option Nat) (refr : Option Refresher)
  | answerS (env : Env)
  | terminateS (opts : TermOpts)
  | sendDTMFS (tones : Option (List Char)) (opts : DtmfOpts) (infoOk : Bool)
  | dtmfFireS (infoOk : Bool)
  | sendInfoS
  | sendRequestS (m : Method)
  | renegotiateS (useUpdate : Bool) (env : Env)
  | receiveRequestS (req : IncomingRequest) (env : Env)
  | receiveInviteResponseS (resp : IncomingResponse) (env : Env)
  | fireInvite2xxS
  | fireAckTimerS
  | fireSessionTimerS (env : Env)
  | onTransportErrorS
  | onRequestTimeoutS
  | onDialogErrorS
deriving DecidableEq, Repr

/-- Apply one step to a session, collecting its outputs (a raised error
leaves the state as mutated up to the raise). -/
def applyStep : Step → Session → Session × List Output
  | Step.connectS args, s => (connect args s).2
  | Step.initIncomingS b e r, s => initIncoming b e r s
  | Step.answerS env, s => (answerOp env s).2
  | Step.terminateS opts, s => (terminate opts s).2
  | Step.sendDTMFS tones opts infoOk, s => (sendDTMF tones opts infoOk s).2
  | Step.dtmfFireS infoOk, s => dtmfFireCore infoOk s
  | Step.sendInfoS, s => (sendInfoOp s).2
  | Step.sendRequestS m, s => (sendRequestOp m s).2
  | Step.renegotiateS u env, s => (renegotiate u env s).2
  | Step.receiveRequestS req env, s => receiveRequest req env s
  | Step.receiveInviteResponseS resp env, s => receiveInviteResponse resp env s
  | Step.fireInvite2xxS, s => fireInvite2xx s
  | Step.fireAckTimerS, s => fireAckTimer s
  | Step.fireSessionTimerS env, s => fireSessionTimer env s
  | Step.onTransportErrorS, s => onTransportErrorF s
  | Step.onRequestTimeoutS, s => onRequestTimeoutF s
  | Step.onDialogErrorS, s => onDialogErrorF s

/-- Run a trace from a state, collecting all outputs in order. -/
def runTrace (s : Session) : List Step → Session × List Output
  | [] => (s, [])
  | st :: tr =>
    let r := applyStep st s
    let rest := runTrace r.1 tr
    (rest.1, r.2 ++ rest.2)

/-- A session state reachable from a freshly constructed session by a trace
of steps. -/
def Reachable (timersEnabled : Bool) (refreshMethod : Method) (s : Session) : Prop :=
  ∃ tr : List Step, (runTrace (initialSession timersEnabled refreshMethod) tr).1 = s

/-- Whether an output is an ended event. -/
@[simp] def isEndedEv (o : Output) : Bool :=
  match o with | Output.evEnded _ _ => true | _ => false

/-- Whether an output is a failed event. -/
@[simp] def isFailedEv (o : Output) : Bool :=
  match o with | Output.evFailed _ _ => true | _ => false

/-- Whether an output is neither an ended nor a failed event. -/
def isNeutralEv (o : Output) : Bool := !isEndedEv o && !isFailedEv o

/-- Number of ended events in an output list. -/
def endedCt (l : List Output) : Nat := l.countP fun o => isEndedEv o

/-- Number of failed events in an output list. -/
def failedCt (l : List Output) : Nat := l.countP fun o => isFailedEv o

/-- Consistency of an armed session timer with the refresher flag and the
negotiated interval. -/
def TimerOK (st : SessTimers) : Prop :=
  ∀ d k, st.timer = some (d, k) →
    k = st.refresher ∧ d = st.currentExpires.getD 0 * (if k then 500 else 1100)

/-- The inductive state invariant of the session machine: the CANCELED
status never survives a step; a latched cancel implies termination; in
WAITING_FOR_ACK or CONFIRMED a confirmed dialog exists; the session timer
is armed only from WAITING_FOR_ACK or CONFIRMED (or stale on a terminated
session), with the armed callback matching the refresher flag and its
delay equal to currentExpires times 500 or 1100 ms. -/
def StateInv (s : Session) : Prop :=
  s.status ≠ Status.canceled ∧
  (s.isCanceled = true → s.status = Status.terminated) ∧
  ((s.status = Status.waitingForAck ∨ s.status = Status.confirmed) →
    s.dialog.isSome = true) ∧
  (∀ d k, s.sessionTimers.timer = some (d, k) →
    s.status = Status.waitingForAck ∨ s.status = Status.confirmed ∨
      s.status = Status.terminated) ∧
  TimerOK s.sessionTimers

/-- The state invariant only inspects the status, the cancel latch, the
dialog and the session timers. -/
theorem stateInv_congr {s t : Session} (h : StateInv s)
    (h1 : t.status = s.status) (h2 : t.isCanceled = s.isCanceled)
    (h3 : t.dialog = s.dialog) (h4 : t.sessionTimers = s.sessionTimers) :
    StateInv t := by
  obtain ⟨i1, i2, i3, i4, i5⟩ := h
  refine ⟨by rw [h1]; exact i1, by rw [h1, h2]; exact i2,
    by rw [h1, h3]; exact i3, by rw [h1, h4]; exact i4, by rw [h4]; exact i5⟩

/-- The conclusions of one sound step from state s: the invariant is
preserved; at most one ended event fires and never together with a failed
event; any ended or failed event leaves the session terminated; a
terminated session stays terminated, fires no ended event and fires failed
only under a latched cancel; a latched cancel after the step was latched
before or came with a failed event. -/
def SoundPost (s : Session) (r : Session × List Output) : Prop :=
  StateInv r.1 ∧
  endedCt r.2 ≤ 1 ∧
  (1 ≤ endedCt r.2 → failedCt r.2 = 0) ∧
  (1 ≤ endedCt r.2 + failedCt r.2 → r.1.status = Status.terminated) ∧
  (s.status = Status.terminated →
    r.1.status = Status.terminated ∧ endedCt r.2 = 0 ∧
    (1 ≤ failedCt r.2 → s.isCanceled = true)) ∧
  (r.1.isCanceled = true → s.isCanceled = true ∨ 1 ≤ failedCt r.2)

theorem close_status (s : Session) : (close s).status = Status.terminated := by
  unfold close
  split <;> simp_all

theorem close_isCanceled (s : Session) : (close s).isCanceled = s.isCanceled := by
  unfold close
  split <;> rfl

theorem stateInv_close {s : Session} (h : StateInv s) : StateInv (close s) := by
  obtain ⟨h1, h2, h3, h4, h5⟩ := h
  unfold close
  split
  · exact ⟨h1, h2, h3, h4, h5⟩
  · refine ⟨by simp, by simp, by simp, ?_, ?_⟩ <;>
      intro d k hk <;> simp at hk

theorem emitFailed_fst {o : Originator} {c : Cause} {s : Session} :
    (emitFailed o c s).1 = close s := rfl

theorem emitEnded_counts (o : Originator) (c : Cause) (s : Session) :
    endedCt (emitEnded o c s).2 = 1 ∧ failedCt (emitEnded o c s).2 = 0 := by
  simp [emitEnded, endedCt, failedCt]

theorem emitFailed_counts (o : Originator) (c : Cause) (s : Session) :
    endedCt (emitFailed o c s).2 = 0 ∧ failedCt (emitFailed o c s).2 = 1 := by
  simp [emitFailed, endedCt, failedCt]

@[simp] theorem emitEnded_status (o : Originator) (c : Cause) (s : Session) :
    (emitEnded o c s).1.status = Status.terminated := close_status _

@[simp] theorem emitFailed_status (o : Originator) (c : Cause) (s : Session) :
    (emitFailed o c s).1.status = Status.terminated := close_status _

@[simp] theorem emitEnded_isCanceled (o : Originator) (c : Cause) (s : Session) :
    (emitEnded o c s).1.isCanceled = s.isCanceled := close_isCanceled _

@[simp] theorem emitFailed_isCanceled (o : Originator) (c : Cause) (s : Session) :
    (emitFailed o c s).1.isCanceled = s.isCanceled := close_isCanceled _

theorem soundPost_id {s : Session} (h : StateInv s) : SoundPost s (s, []) := by
  refine ⟨h, by simp [endedCt, failedCt], by simp [endedCt, failedCt],
    by simp [endedCt, failedCt], ?_, ?_⟩
  · intro ht
    exact ⟨ht, by simp [endedCt], by simp [failedCt]⟩
  · intro hc
    exact Or.inl hc

theorem terminateCancel_sound {s : Session} (reason : Option (Nat × Phrase))
    (hs : s.status ≠ Status.terminated) :
    SoundPost s ((terminateCancel reason s).2) := by
  unfold terminateCancel emitFailed
  refine ⟨?_, ?_, ?_, ?_, ?_, ?_⟩ <;>
    simp [close, endedCt, failedCt, StateInv, TimerOK, List.countP_append] <;>
    first
      | (split <;> simp_all)
      | simp_all

theorem terminateBye_sound {s : Session} (reason : Option (Nat × Phrase))
    (cause : Cause) (h : StateInv s) (hs : s.status ≠ Status.terminated) :
    SoundPost s ((terminateBye reason cause s).2) := by
  unfold terminateBye emitEnded
  match hd : s.dialog with
  | none => exact soundPost_id h
  | some d =>
    refine ⟨?_, ?_, ?_, ?_, ?_, ?_⟩ <;>
      simp [close, endedCt, failedCt, StateInv, TimerOK, List.countP_append] <;>
      first
        | (split <;> simp_all)
        | simp_all

theorem terminate_sound {s : Session} (opts : TermOpts) (h : StateInv s) :
    SoundPost s ((terminate opts s).2) := by
  unfold terminate
  by_cases ht : s.status = Status.terminated
  · simp only [ht, if_pos rfl]
    exact soundPost_id h
  · simp only [if_neg ht]
    match hs : s.status with
    | Status.null_ | Status.inviteSent | Status.oneXXReceived =>
      simp only
      match opts.statusCode with
      | some c =>
        simp only
        split
        · exact soundPost_id h
        · exact terminateCancel_sound _ (hs ▸ ht)
      | none => exact terminateCancel_sound _ (hs ▸ ht)
    | Status.waitingForAck | Status.confirmed =>
      simp only
      match opts.statusCode with
      | some c =>
        simp only
        split
        · exact soundPost_id h
        · exact terminateBye_sound _ _ h (hs ▸ ht)
      | none => exact terminateBye_sound _ _ h (hs ▸ ht)
    | Status.inviteReceived | Status.waitingForAnswer | Status.answered
    | Status.canceled => exact soundPost_id h
    | Status.terminated => exact absurd hs ht

@[simp] theorem runSessionTimer_status (s : Session) :
    (runSessionTimer s).status = s.status := rfl

@[simp] theorem runSessionTimer_isCanceled (s : Session) :
    (runSessionTimer s).isCanceled = s.isCanceled := rfl

@[simp] theorem runSessionTimer_dialog (s : Session) :
    (runSessionTimer s).dialog = s.dialog := rfl

theorem timerOK_runSessionTimer (s : Session) :
    TimerOK (runSessionTimer s).sessionTimers := by
  intro d k hk
  simp [runSessionTimer] at hk ⊢
  split at hk <;> simp_all

@[simp] theorem adoptSessionExpires_status (v : Nat) (f : Bool) (s : Session) :
    (adoptSessionExpires v f s).status = s.status := rfl

@[simp] theorem adoptSessionExpires_isCanceled (v : Nat) (f : Bool) (s : Session) :
    (adoptSessionExpires v f s).isCanceled = s.isCanceled := rfl

@[simp] theorem adoptSessionExpires_dialog (v : Nat) (f : Bool) (s : Session) :
    (adoptSessionExpires v f s).dialog = s.dialog := rfl

theorem timerOK_adoptSessionExpires (v : Nat) (f : Bool) (s : Session) :
    TimerOK (adoptSessionExpires v f s).sessionTimers :=
  timerOK_runSessionTimer _

@[simp] theorem handleReq_status (e : Option Nat) (r : Option Refresher) (s : Session) :
    (handleSessionTimersInIncomingRequest e r s).status = s.status := by
  unfold handleSessionTimersInIncomingRequest
  split
  · rfl
  · split
    · split <;> rfl
    · rfl

@[simp] theorem handleReq_isCanceled (e : Option Nat) (r : Option Refresher) (s : Session) :
    (handleSessionTimersInIncomingRequest e r s).isCanceled = s.isCanceled := by
  unfold handleSessionTimersInIncomingRequest
  split
  · rfl
  · split
    · split <;> rfl
    · rfl

@[simp] theorem handleReq_dialog (e : Option Nat) (r : Option Refresher) (s : Session) :
    (handleSessionTimersInIncomingRequest e r s).dialog = s.dialog := by
  unfold handleSessionTimersInIncomingRequest
  split
  · rfl
  · split
    · split <;> rfl
    · rfl

theorem timerOK_handleReq (e : Option Nat) (r : Option Refresher) {s : Session}
    (h : TimerOK s.sessionTimers) :
    TimerOK (handleSessionTimersInIncomingRequest e r s).sessionTimers := by
  unfold handleSessionTimersInIncomingRequest
  split
  · exact h
  · split
    · split <;> exact timerOK_adoptSessionExpires _ _ _
    · exact timerOK_adoptSessionExpires _ _ _

@[simp] theorem handleResp_status (e : Option Nat) (r : Option Refresher) (s : Session) :
    (handleSessionTimersInIncomingResponse e r s).status = s.status := by
  unfold handleSessionTimersInIncomingResponse
  split
  · rfl
  · split
    · split <;> rfl
    · rfl

@[simp] theorem handleResp_isCanceled (e : Option Nat) (r : Option Refresher) (s : Session) :
    (handleSessionTimersInIncomingResponse e r s).isCanceled = s.isCanceled := by
  unfold handleSessionTimersInIncomingResponse
  split
  · rfl
  · split
    · split <;> rfl
    · rfl

@[simp] theorem handleResp_dialog (e : Option Nat) (r : Option Refresher) (s : Session) :
    (handleSessionTimersInIncomingResponse e r s).dialog = s.dialog := by
  unfold handleSessionTimersInIncomingResponse
  split
  · rfl
  · split
    · split <;> rfl
    · rfl

theorem timerOK_handleResp (e : Option Nat) (r : Option Refresher) {s : Session}
    (h : TimerOK s.sessionTimers) :
    TimerOK (handleSessionTimersInIncomingResponse e r s).sessionTimers := by
  unfold handleSessionTimersInIncomingResponse
  split
  · exact h
  · split
    · split <;> exact timerOK_adoptSessionExpires _ _ _
    · exact timerOK_adoptSessionExpires _ _ _

@[simp] theorem createLocalDescription_status (offer : Bool) (env : Env) (s : Session) :
    (createLocalDescription offer env s).1.status = s.status := by
  unfold createLocalDescription
  split <;> rfl

@[simp] theorem createLocalDescription_isCanceled (offer : Bool) (env : Env) (s : Session) :
    (createLocalDescription offer env s).1.isCanceled = s.isCanceled := by
  unfold createLocalDescription
  split <;> rfl

@[simp] theorem createLocalDescription_dialog (offer : Bool) (env : Env) (s : Session) :
    (createLocalDescription offer env s).1.dialog = s.dialog := by
  unfold createLocalDescription
  split <;> rfl

@[simp] theorem createLocalDescription_sessionTimers (offer : Bool) (env : Env) (s : Session) :
    (createLocalDescription offer env s).1.sessionTimers = s.sessionTimers := by
  unfold createLocalDescription
  split <;> rfl

@[simp] theorem createLocalDescription_counts (offer : Bool) (env : Env) (s : Session) :
    endedCt (createLocalDescription offer env s).2.1 = 0 ∧
    failedCt (createLocalDescription offer env s).2.1 = 0 := by
  cases offer <;> unfold createLocalDescription <;>
    split <;> simp [endedCt, failedCt]

theorem soundPost_of_noEvents {s : Session} {r : Session × List Output}
    (hInv : StateInv r.1) (he : endedCt r.2 = 0) (hf : failedCt r.2 = 0)
    (hterm : s.status = Status.terminated → r.1.status = Status.terminated)
    (hcanc : r.1.isCanceled = true → s.isCanceled = true) : SoundPost s r := by
  refine ⟨hInv, by omega, by omega, by omega, ?_, fun h => Or.inl (hcanc h)⟩
  intro ht
  exact ⟨hterm ht, he, by omega⟩

@[simp] theorem connectAdjustExpires_status (args : ConnectArgs) (s : Session) :
    (connectAdjustExpires args s).status = s.status := by
  unfold connectAdjustExpires
  split
  · split <;> rfl
  · rfl

@[simp] theorem connectAdjustExpires_isCanceled (args : ConnectArgs) (s : Session) :
    (connectAdjustExpires args s).isCanceled = s.isCanceled := by
  unfold connectAdjustExpires
  split
  · split <;> rfl
  · rfl

@[simp] theorem connectAdjustExpires_dialog (args : ConnectArgs) (s : Session) :
    (connectAdjustExpires args s).dialog = s.dialog := by
  unfold connectAdjustExpires
  split
  · split <;> rfl
  · rfl

@[simp] theorem connectAdjustExpires_timer (args : ConnectArgs) (s : Session) :
    (connectAdjustExpires args s).sessionTimers.timer = s.sessionTimers.timer := by
  unfold connectAdjustExpires
  split
  · split <;> rfl
  · rfl

theorem connectProceed_sound {s : Session} (args : ConnectArgs)
    (h : StateInv s) (hn : s.status = Status.null_) :
    SoundPost s (connectProceed args s) := by
  obtain ⟨i1, i2, i3, i4, i5⟩ := h
  have hnc : s.isCanceled = false := by
    cases hc : s.isCanceled
    · rfl
    · exact absurd (hn ▸ i2 hc) (by simp)
  have htm : s.sessionTimers.timer = none := by
    cases ht : s.sessionTimers.timer with
    | none => rfl
    | some p =>
      exact absurd (i4 p.1 p.2 (by rw [ht])) (by rw [hn]; simp)
  unfold connectProceed
  split
  · rename_i hcond
    exfalso
    simp [hnc, hn] at hcond
  · refine soundPost_of_noEvents ?_ (by simp [endedCt]) (by simp [failedCt])
      (fun ht => absurd (hn ▸ ht) (by simp)) (fun hc => by simp_all)
    refine ⟨by simp, fun hc => by simp_all, fun hw => by simp_all, fun d k hk => ?_,
      fun d k hk => ?_⟩ <;> simp [htm] at hk

theorem connect_sound {s : Session} (args : ConnectArgs) (h : StateInv s) :
    SoundPost s (connect args s).2 := by
  have hdata : StateInv (connectData args s) := stateInv_congr h rfl rfl rfl rfl
  unfold connect
  split
  · exact soundPost_of_noEvents hdata (by simp [endedCt]) (by simp [failedCt])
      (fun ht => ht) (fun hc => hc)
  · split
    · exact soundPost_of_noEvents hdata (by simp [endedCt]) (by simp [failedCt])
        (fun ht => ht) (fun hc => hc)
    · split
      · exact soundPost_of_noEvents hdata (by simp [endedCt]) (by simp [failedCt])
          (fun ht => ht) (fun hc => hc)
      · rename_i hnull _
        have hn : (connectData args s).status = Status.null_ := by simp_all
        have hp := connectProceed_sound args hdata hn
        unfold SoundPost at hp ⊢
        simpa [connectData] using hp

theorem initIncoming_sound {s : Session} (b e : Option Nat) (r : Option Refresher)
    (h : StateInv s) : SoundPost s (initIncoming b e r s) := by
  unfold initIncoming
  split
  · rename_i hn
    obtain ⟨i1, i2, i3, i4, i5⟩ := h
    have htm : s.sessionTimers.timer = none := by
      cases ht : s.sessionTimers.timer with
      | none => rfl
      | some p => exact absurd (i4 p.1 p.2 (by rw [ht])) (by rw [hn]; simp)
    refine soundPost_of_noEvents ?_ (by simp [endedCt]) (by simp [failedCt])
      (fun ht => absurd (hn ▸ ht) (by simp)) (fun hc => by simp_all)
    refine ⟨by simp, fun hc => by simp_all, fun hw => by simp_all,
      fun d k hk => ?_, fun d k hk => ?_⟩ <;> simp [htm] at hk
  · exact soundPost_id h

@[simp] theorem dtmfFireCore_status (infoOk : Bool) (s : Session) :
    (dtmfFireCore infoOk s).1.status = s.status := by
  unfold dtmfFireCore
  cases s.tones with
  | none => rfl
  | some ts => split <;> (try split) <;> (try split) <;> (try split) <;> rfl

@[simp] theorem dtmfFireCore_isCanceled (infoOk : Bool) (s : Session) :
    (dtmfFireCore infoOk s).1.isCanceled = s.isCanceled := by
  unfold dtmfFireCore
  cases s.tones with
  | none => rfl
  | some ts => split <;> (try split) <;> (try split) <;> (try split) <;> rfl

@[simp] theorem dtmfFireCore_dialog (infoOk : Bool) (s : Session) :
    (dtmfFireCore infoOk s).1.dialog = s.dialog := by
  unfold dtmfFireCore
  cases s.tones with
  | none => rfl
  | some ts => split <;> (try split) <;> (try split) <;> (try split) <;> rfl

@[simp] theorem dtmfFireCore_sessionTimers (infoOk : Bool) (s : Session) :
    (dtmfFireCore infoOk s).1.sessionTimers = s.sessionTimers := by
  unfold dtmfFireCore
  cases s.tones with
  | none => rfl
  | some ts => split <;> (try split) <;> (try split) <;> (try split) <;> rfl

theorem dtmfFireCore_counts (infoOk : Bool) (s : Session) :
    endedCt (dtmfFireCore infoOk s).2 = 0 ∧ failedCt (dtmfFireCore infoOk s).2 = 0 := by
  unfold dtmfFireCore
  cases s.tones with
  | none => simp [endedCt, failedCt]
  | some ts =>
    split <;> (try split) <;> (try split) <;> (try split) <;> simp [endedCt, failedCt]

theorem dtmfFireCore_sound {s : Session} (infoOk : Bool) (h : StateInv s) :
    SoundPost s (dtmfFireCore infoOk s) :=
  soundPost_of_noEvents
    (stateInv_congr h (dtmfFireCore_status infoOk s) (dtmfFireCore_isCanceled infoOk s)
      (dtmfFireCore_dialog infoOk s) (dtmfFireCore_sessionTimers infoOk s))
    (dtmfFireCore_counts infoOk s).1 (dtmfFireCore_counts infoOk s).2
    (fun ht => (dtmfFireCore_status infoOk s).trans ht)
    (fun hc => (dtmfFireCore_isCanceled infoOk s) ▸ hc)

@[simp] theorem sendDTMFStart_status (ts : List Char) (dur gap : Nat) (infoOk : Bool)
    (s : Session) : (sendDTMFStart ts dur gap infoOk s).1.status = s.status := by
  unfold sendDTMFStart
  rw [dtmfFireCore_status]

@[simp] theorem sendDTMFStart_isCanceled (ts : List Char) (dur gap : Nat) (infoOk : Bool)
    (s : Session) : (sendDTMFStart ts dur gap infoOk s).1.isCanceled = s.isCanceled := by
  unfold sendDTMFStart
  rw [dtmfFireCore_isCanceled]

@[simp] theorem sendDTMFStart_dialog (ts : List Char) (dur gap : Nat) (infoOk : Bool)
    (s : Session) : (sendDTMFStart ts dur gap infoOk s).1.dialog = s.dialog := by
  unfold sendDTMFStart
  rw [dtmfFireCore_dialog]

@[simp] theorem sendDTMFStart_sessionTimers (ts : List Char) (dur gap : Nat)
    (infoOk : Bool) (s : Session) :
    (sendDTMFStart ts dur gap infoOk s).1.sessionTimers = s.sessionTimers := by
  unfold sendDTMFStart
  rw [dtmfFireCore_sessionTimers]

theorem sendDTMFStart_sound {s : Session} (ts : List Char) (dur gap : Nat)
    (infoOk : Bool) (h : StateInv s) : SoundPost s (sendDTMFStart ts dur gap infoOk s) :=
  soundPost_of_noEvents
    (stateInv_congr h (sendDTMFStart_status ts dur gap infoOk s)
      (sendDTMFStart_isCanceled ts dur gap infoOk s)
      (sendDTMFStart_dialog ts dur gap infoOk s)
      (sendDTMFStart_sessionTimers ts dur gap infoOk s))
    (dtmfFireCore_counts infoOk _).1 (dtmfFireCore_counts infoOk _).2
    (fun ht => (sendDTMFStart_status ts dur gap infoOk s).trans ht)
    (fun hc => (sendDTMFStart_isCanceled ts dur gap infoOk s) ▸ hc)

theorem sendDTMF_sound {s : Session} (tones : Option (List Char)) (opts : DtmfOpts)
    (infoOk : Bool) (h : StateInv s) : SoundPost s (sendDTMF tones opts infoOk s).2 := by
  cases tones with
  | none =>
    simp only [sendDTMF]
    exact soundPost_id h
  | some ts =>
    simp only [sendDTMF]
    split
    · exact soundPost_id h
    · split
      · exact soundPost_id h
      · split
        · exact soundPost_id h
        · exact soundPost_id h
        · split
          · exact soundPost_of_noEvents (stateInv_congr h rfl rfl rfl rfl)
              (by simp [endedCt]) (by simp [failedCt]) (fun ht => ht) (fun hc => hc)
          · exact sendDTMFStart_sound _ _ _ infoOk h

theorem sendInfoOp_sound {s : Session} (h : StateInv s) :
    SoundPost s (sendInfoOp s).2 := by
  unfold sendInfoOp
  split
  · exact soundPost_id h
  · exact soundPost_of_noEvents h (by simp [endedCt]) (by simp [failedCt])
      (fun ht => ht) (fun hc => hc)

theorem sendRequestOp_sound {s : Session} (m : Method) (h : StateInv s) :
    SoundPost s (sendRequestOp m s).2 := by
  unfold sendRequestOp
  match s.dialog with
  | none => exact soundPost_id h
  | some d =>
    exact soundPost_of_noEvents h (by simp [endedCt]) (by simp [failedCt])
      (fun ht => ht) (fun hc => hc)

theorem fireInvite2xx_sound {s : Session} (h : StateInv s) :
    SoundPost s (fireInvite2xx s) := by
  unfold fireInvite2xx
  split
  · exact soundPost_id h
  · split
    · exact soundPost_of_noEvents (stateInv_congr h rfl rfl rfl rfl)
        (by simp [endedCt]) (by simp [failedCt]) (fun ht => ht) (fun hc => hc)
    · exact soundPost_of_noEvents (stateInv_congr h rfl rfl rfl rfl)
        (by simp [endedCt]) (by simp [failedCt]) (fun ht => ht) (fun hc => hc)

theorem fireAckTimer_sound {s : Session} (h : StateInv s) :
    SoundPost s (fireAckTimer s) := by
  unfold fireAckTimer
  split
  · exact soundPost_id h
  · split
    · rename_i hw
      split
      · rename_i hd
        exfalso
        have := h.2.2.1 (Or.inl hw)
        simp [hd] at this
      · refine ⟨stateInv_close (stateInv_congr h rfl rfl rfl rfl),
          ?_, ?_, ?_, ?_, ?_⟩
        · simp [emitEnded, endedCt]
        · simp [emitEnded, endedCt, failedCt]
        · intro hct
          simp [emitEnded, close_status]
        · intro ht
          exfalso
          rw [ht] at hw
          simp at hw
        · intro hc
          left
          rw [emitEnded_isCanceled] at hc
          simpa using hc
    · exact soundPost_of_noEvents (stateInv_congr h rfl rfl rfl rfl)
        (by simp [endedCt]) (by simp [failedCt]) (fun ht => ht) (fun hc => hc)

theorem onTransportErrorF_sound {s : Session} (h : StateInv s) :
    SoundPost s (onTransportErrorF s) := by
  unfold onTransportErrorF
  split
  · exact soundPost_id h
  · exact terminate_sound _ h

theorem onRequestTimeoutF_sound {s : Session} (h : StateInv s) :
    SoundPost s (onRequestTimeoutF s) := by
  unfold onRequestTimeoutF
  split
  · exact soundPost_id h
  · exact terminate_sound _ h

theorem onDialogErrorF_sound {s : Session} (h : StateInv s) :
    SoundPost s (onDialogErrorF s) := by
  unfold onDialogErrorF
  split
  · exact soundPost_id h
  · exact terminate_sound _ h

theorem close_of_terminated {s : Session} (h : s.status = Status.terminated) :
    close s = s := by
  unfold close
  rw [if_pos h]

theorem stateInv_close_of_not_terminated {s : Session}
    (h : s.status ≠ Status.terminated) : StateInv (close s) := by
  unfold close
  rw [if_neg h]
  exact ⟨by simp, by simp, by simp, fun d k hk => by simp at hk,
    fun d k hk => by simp at hk⟩

@[simp] theorem endedCt_nil : endedCt [] = 0 := rfl

@[simp] theorem failedCt_nil : failedCt [] = 0 := rfl

@[simp] theorem endedCt_cons (o : Output) (l : List Output) :
    endedCt (o :: l) = endedCt l + (if isEndedEv o then 1 else 0) :=
  List.countP_cons _ _ _

@[simp] theorem failedCt_cons (o : Output) (l : List Output) :
    failedCt (o :: l) = failedCt l + (if isFailedEv o then 1 else 0) :=
  List.countP_cons _ _ _

theorem endedCt_append (a b : List Output) :
    endedCt (a ++ b) = endedCt a + endedCt b := List.countP_append _ _ _

theorem failedCt_append (a b : List Output) :
    failedCt (a ++ b) = failedCt a + failedCt b := List.countP_append _ _ _

theorem endedCt_of_neutral {l : List Output} (h : l.all isNeutralEv = true) :
    endedCt l = 0 := by
  rw [endedCt, List.countP_eq_zero]
  intro a ha
  have := (List.all_eq_true.mp h) a ha
  simp [isNeutralEv] at this
  simp [this.1]

theorem failedCt_of_neutral {l : List Output} (h : l.all isNeutralEv = true) :
    failedCt l = 0 := by
  rw [failedCt, List.countP_eq_zero]
  intro a ha
  have := (List.all_eq_true.mp h) a ha
  simp [isNeutralEv] at this
  simp [this.2]

/-- Wrapping the output list of a sound step in neutral outputs (no ended or
failed events) keeps it sound. -/
theorem soundPost_wrap {s s1 : Session} {mid : List Output} (pre suf : List Output)
    (hp : SoundPost s (s1, mid))
    (hpre : pre.all isNeutralEv = true) (hsuf : suf.all isNeutralEv = true) :
    SoundPost s (s1, pre ++ mid ++ suf) := by
  obtain ⟨p1, p2, p3, p4, p5, p6⟩ := hp
  have he : endedCt (pre ++ mid ++ suf) = endedCt mid := by
    rw [endedCt_append, endedCt_append, endedCt_of_neutral hpre,
      endedCt_of_neutral hsuf]
    omega
  have hf : failedCt (pre ++ mid ++ suf) = failedCt mid := by
    rw [failedCt_append, failedCt_append, failedCt_of_neutral hpre,
      failedCt_of_neutral hsuf]
    omega
  exact ⟨p1, by rw [he]; exact p2, by rw [he, hf]; exact p3,
    by rw [he, hf]; exact p4,
    fun ht => ⟨(p5 ht).1, by rw [he]; exact (p5 ht).2.1,
      by rw [hf]; exact (p5 ht).2.2⟩,
    fun hc => by
      rcases p6 hc with h | h
      · exact Or.inl h
      · exact Or.inr (by rw [hf]; exact h)⟩

/-- Transferring a sound step to an earlier pre-state whose termination and
cancel latch it reflects. -/
theorem soundPost_trans {s s1 : Session} {r : Session × List Output}
    (hp : SoundPost s1 r)
    (hterm : s.status = Status.terminated → s1.status = Status.terminated)
    (hcanc : s1.isCanceled = true → s.isCanceled = true) : SoundPost s r := by
  obtain ⟨p1, p2, p3, p4, p5, p6⟩ := hp
  refine ⟨p1, p2, p3, p4, fun ht => ?_, fun hc => ?_⟩
  · obtain ⟨q1, q2, q3⟩ := p5 (hterm ht)
    exact ⟨q1, q2, fun hf => hcanc (q3 hf)⟩
  · rcases p6 hc with h | h
    · exact Or.inl (hcanc h)
    · exact Or.inr h

theorem timerOK_close {s : Session} (h : TimerOK s.sessionTimers) :
    TimerOK (close s).sessionTimers := by
  unfold close
  split
  · exact h
  · intro d k hk
    simp at hk

theorem stateInv_of_terminated {s : Session} (h : s.status = Status.terminated)
    (h5 : TimerOK s.sessionTimers) : StateInv s := by
  refine ⟨by rw [h]; simp, fun _ => h, fun hw => ?_, fun d k _ => by
    right; right; exact h, h5⟩
  rw [h] at hw
  rcases hw with hw | hw <;> simp at hw

theorem timer_none_of_status {s : Session} (h : StateInv s)
    (hw : s.status ≠ Status.waitingForAck) (hc : s.status ≠ Status.confirmed)
    (ht : s.status ≠ Status.terminated) : s.sessionTimers.timer = none := by
  cases htm : s.sessionTimers.timer with
  | none => rfl
  | some p =>
    rcases h.2.2.2.1 p.1 p.2 (by rw [htm]) with hx | hx | hx
    · exact absurd hx hw
    · exact absurd hx hc
    · exact absurd hx ht

/-- The conclusions of an accept-and-terminate-like stage: a terminated,
invariant-satisfying state, no ended event, at most n failed events, and
the cancel latch untouched. -/
def TermPost (s : Session) (r : Session × List Output) (n : Nat) : Prop :=
  r.1.status = Status.terminated ∧ StateInv r.1 ∧ endedCt r.2 = 0 ∧
  failedCt r.2 ≤ n ∧ r.1.isCanceled = s.isCanceled

theorem soundPost_of_termPost {s : Session} {r : Session × List Output} {n : Nat}
    (ht : TermPost s r n) (hs : s.status ≠ Status.terminated) : SoundPost s r := by
  obtain ⟨t1, t2, t3, t4, t5⟩ := ht
  refine ⟨t2, by omega, fun h => by omega, fun _ => t1, fun h => absurd h hs,
    fun hc => Or.inl (by rw [t5] at hc; exact hc)⟩

theorem createConfirmedDialogUAC_true {r : IncomingResponse} {s : Session}
    (h : (createConfirmedDialogUAC r s).1 = true) :
    (createConfirmedDialogUAC r s).2.1.dialog = some (confirmedDialogOf r) ∧
    (createConfirmedDialogUAC r s).2.1.status = s.status ∧
    (createConfirmedDialogUAC r s).2.1.isCanceled = s.isCanceled ∧
    (createConfirmedDialogUAC r s).2.1.sessionTimers = s.sessionTimers ∧
    (createConfirmedDialogUAC r s).2.2 = [] := by
  by_cases h1 : hasEarlyDialog r s = true
  · unfold createConfirmedDialogUAC
    simp [h1]
    exact ⟨rfl, rfl, rfl⟩
  · by_cases h2 : dialogFails r = true
    · exfalso
      unfold createConfirmedDialogUAC at h
      simp only [h1, h2] at h
      simp at h
    · unfold createConfirmedDialogUAC
      simp [h1, h2]
      exact ⟨rfl, rfl, rfl⟩

theorem createConfirmedDialogUAC_false {r : IncomingResponse} {s : Session}
    (h : (createConfirmedDialogUAC r s).1 = false) :
    (createConfirmedDialogUAC r s).2.1.status = Status.terminated ∧
    (createConfirmedDialogUAC r s).2.1.isCanceled = s.isCanceled ∧
    (TimerOK s.sessionTimers → TimerOK (createConfirmedDialogUAC r s).2.1.sessionTimers) ∧
    endedCt (createConfirmedDialogUAC r s).2.2 = 0 ∧
    failedCt (createConfirmedDialogUAC r s).2.2 = 1 := by
  by_cases h1 : hasEarlyDialog r s = true
  · exfalso
    unfold createConfirmedDialogUAC at h
    simp [h1] at h
  · by_cases h2 : dialogFails r = true
    · unfold createConfirmedDialogUAC
      simp only [h1, h2, Bool.false_eq_true, if_false, if_true]
      refine ⟨close_status _, close_isCanceled _, fun hok => timerOK_close hok,
        by simp [emitFailed, endedCt], by simp [emitFailed, failedCt]⟩
    · exfalso
      unfold createConfirmedDialogUAC at h
      simp [h1, h2] at h

theorem acceptAndTerminate_spec (r : IncomingResponse) (reason : Option (Nat × Phrase))
    {s : Session} (hok : TimerOK s.sessionTimers) :
    TermPost s (acceptAndTerminate r reason s) 1 := by
  unfold acceptAndTerminate
  split
  · exact ⟨rfl, stateInv_of_terminated rfl hok, by simp [endedCt],
      by simp [failedCt], rfl⟩
  · split
    · rename_i hcr
      obtain ⟨d1, d2, d3, d4, d5⟩ := createConfirmedDialogUAC_true hcr
      have hT : TimerOK
          ({ (createConfirmedDialogUAC r s).2.1 with
             status := Status.terminated } : Session).sessionTimers := by
        have : ({ (createConfirmedDialogUAC r s).2.1 with
            status := Status.terminated } : Session).sessionTimers
            = s.sessionTimers := d4
        rw [this]
        exact hok
      refine ⟨rfl, stateInv_of_terminated rfl hT, ?_, ?_, ?_⟩
      · rw [endedCt_append, d5]
        simp [endedCt]
      · rw [failedCt_append, d5]
        simp [failedCt]
      · have : ({ (createConfirmedDialogUAC r s).2.1 with
            status := Status.terminated } : Session).isCanceled
            = (createConfirmedDialogUAC r s).2.1.isCanceled := rfl
        rw [this, d3]
    · rename_i hcr
      have hcr2 : (createConfirmedDialogUAC r s).1 = false := by
        simpa using hcr
      obtain ⟨d1, d2, d3, d4, d5⟩ := createConfirmedDialogUAC_false hcr2
      have hT : TimerOK
          ({ (createConfirmedDialogUAC r s).2.1 with
             status := Status.terminated } : Session).sessionTimers := by
        have : ({ (createConfirmedDialogUAC r s).2.1 with
            status := Status.terminated } : Session).sessionTimers
            = (createConfirmedDialogUAC r s).2.1.sessionTimers := rfl
        rw [this]
        exact d3 hok
      refine ⟨rfl, stateInv_of_terminated rfl hT, d4, by simp [d5], ?_⟩
      have : ({ (createConfirmedDialogUAC r s).2.1 with
          status := Status.terminated } : Session).isCanceled
          = (createConfirmedDialogUAC r s).2.1.isCanceled := rfl
      rw [this, d2]

theorem acceptTerminateFail_spec (r : IncomingResponse) (reason : Option (Nat × Phrase))
    (o : Originator) (c : Cause) {s : Session} (hok : TimerOK s.sessionTimers) :
    TermPost s (acceptTerminateFail r reason o c s) 2 := by
  obtain ⟨a1, a2, a3, a4, a5⟩ := acceptAndTerminate_spec r reason hok
  unfold acceptTerminateFail
  have hfst : (emitFailed o c (acceptAndTerminate r reason s).1).1
      = (acceptAndTerminate r reason s).1 := by
    rw [emitFailed_fst, close_of_terminated a1]
  refine ⟨?_, ?_, ?_, ?_, ?_⟩
  · rw [hfst]
    exact a1
  · rw [hfst]
    exact a2
  · rw [endedCt_append, a3, (emitFailed_counts o c _).1]
  · rw [failedCt_append, (emitFailed_counts o c _).2]
    omega
  · rw [hfst]
    exact a5

theorem acceptAndTerminate_dialog {r : IncomingResponse}
    {reason : Option (Nat × Phrase)} {s : Session} (hd : s.dialog.isSome = true) :
    (acceptAndTerminate r reason s).1.dialog = s.dialog := by
  unfold acceptAndTerminate
  match hx : s.dialog with
  | some d => rfl
  | none => rw [hx] at hd; simp at hd

theorem acceptTerminateFail_dialog {r : IncomingResponse}
    {reason : Option (Nat × Phrase)} {o : Originator} {c : Cause} {s : Session}
    (hok : TimerOK s.sessionTimers) (hd : s.dialog.isSome = true) :
    (acceptTerminateFail r reason o c s).1.dialog = s.dialog := by
  obtain ⟨a1, _, _, _, _⟩ := acceptAndTerminate_spec r reason hok
  unfold acceptTerminateFail
  rw [emitFailed_fst, close_of_terminated a1]
  exact acceptAndTerminate_dialog hd

/-- The conclusions of a 2xx negotiation-chain stage: the invariant holds,
no ended event fires, a failed event implies termination, the cancel latch
is untouched, and termination is preserved. -/
def ChainPost (s : Session) (r : Session × List Output) : Prop :=
  StateInv r.1 ∧ endedCt r.2 = 0 ∧
  (1 ≤ failedCt r.2 → r.1.status = Status.terminated) ∧
  r.1.isCanceled = s.isCanceled ∧
  (s.status = Status.terminated → r.1.status = Status.terminated)

theorem soundPost_of_chainPost {s : Session} {r : Session × List Output}
    (hch : ChainPost s r) (hs : s.status ≠ Status.terminated) : SoundPost s r := by
  obtain ⟨c1, c2, c3, c4, c5⟩ := hch
  exact ⟨c1, by omega, fun h => by omega, fun h => c3 (by omega),
    fun h => absurd h hs, fun hc => Or.inl (by rw [c4] at hc; exact hc)⟩

theorem receive2xxMediaOk_spec (r : IncomingResponse) {s : Session}
    (hst : s.status = Status.confirmed ∨ s.status = Status.terminated)
    (hd : s.dialog.isSome = true) (hok : TimerOK s.sessionTimers)
    (hnc : s.isCanceled = false) : ChainPost s (receive2xxMediaOk r s) := by
  have e1 : (receive2xxMediaOk r s).1.status
      = s.status := handleResp_status _ _ _
  have e2 : (receive2xxMediaOk r s).1.isCanceled
      = s.isCanceled := handleResp_isCanceled _ _ _
  have e3 : (receive2xxMediaOk r s).1.dialog
      = s.dialog := handleResp_dialog _ _ _
  have e5 : TimerOK (receive2xxMediaOk r s).1.sessionTimers :=
    timerOK_handleResp _ _ hok
  refine ⟨⟨?_, ?_, ?_, ?_, e5⟩, ?_, ?_, e2, ?_⟩
  · rw [e1]
    rcases hst with h | h <;> rw [h] <;> simp
  · intro hc
    rw [e2, hnc] at hc
    simp at hc
  · intro _
    rw [e3]
    exact hd
  · intro d k _
    rcases hst with h | h
    · exact Or.inr (Or.inl (e1.trans h))
    · exact Or.inr (Or.inr (e1.trans h))
  · simp [receive2xxMediaOk, endedCt]
  · intro h
    simp [receive2xxMediaOk, failedCt] at h
  · intro h
    exact e1.trans h

theorem receive2xxStep2_spec (r : IncomingResponse) (env : Env) {s : Session}
    (hst : s.status = Status.confirmed ∨ s.status = Status.terminated)
    (hd : s.dialog.isSome = true) (hok : TimerOK s.sessionTimers)
    (hnc : s.isCanceled = false) : ChainPost s (receive2xxStep2 r env s) := by
  unfold receive2xxStep2
  split
  · exact receive2xxMediaOk_spec r hst hd hok hnc
  · obtain ⟨t1, t2, t3, t4, t5⟩ :=
      acceptTerminateFail_spec r (some (488, Phrase.notAcceptableHere))
        Originator.remote Cause.badMediaDescription hok
    refine ⟨t2, ?_, fun _ => t1, t5, fun _ => t1⟩
    rw [endedCt_append, t3]
    simp [endedCt]

theorem receive2xxChain_spec (r : IncomingResponse) (env : Env) {s : Session}
    (hst : s.status = Status.confirmed ∨ s.status = Status.terminated)
    (hd : s.dialog.isSome = true) (hok : TimerOK s.sessionTimers)
    (hnc : s.isCanceled = false) : ChainPost s (receive2xxChain r env s) := by
  unfold receive2xxChain
  split
  · obtain ⟨t1, t2, t3, t4, t5⟩ :=
      acceptTerminateFail_spec r (some (500, Phrase.errorString)) Originator.local_
        Cause.webrtcError hok
    have hd2 : (acceptTerminateFail r (some (500, Phrase.errorString)) Originator.local_
        Cause.webrtcError s).1.dialog.isSome = true := by
      rw [acceptTerminateFail_dialog hok hd]
      exact hd
    have hch2 := receive2xxStep2_spec r env (Or.inr t1) hd2 t2.2.2.2.2
      (by rw [t5]; exact hnc)
    obtain ⟨c1, c2, c3, c4, c5⟩ := hch2
    refine ⟨c1, ?_, fun _ => c5 t1, by rw [c4, t5], fun _ => c5 t1⟩
    rw [endedCt_append, t3, c2]
  · exact receive2xxStep2_spec r env hst hd hok hnc

theorem receive2xx_sound {s : Session} (r : IncomingResponse) (env : Env)
    (hs : s.status = Status.inviteSent ∨ s.status = Status.oneXXReceived)
    (h : StateInv s) : SoundPost s (receive2xx r env s) := by
  have hterm0 : s.status ≠ Status.terminated := by
    rcases hs with h1 | h1 <;> rw [h1] <;> simp
  have hnc : s.isCanceled = false := by
    cases hc : s.isCanceled
    · rfl
    · exact absurd (h.2.1 hc) hterm0
  have hok1 : TimerOK ({ s with status := Status.confirmed } : Session).sessionTimers :=
    h.2.2.2.2
  cases hb : r.body with
  | none =>
    simp only [receive2xx, hb]
    exact soundPost_of_termPost
      (acceptTerminateFail_spec r (some (400, Phrase.causeText Cause.missingSdp))
        Originator.remote Cause.badMediaDescription hok1) hterm0
  | some _ =>
    simp only [receive2xx, hb]
    split
    · rename_i hcr
      obtain ⟨d1, d2, d3, d4, d5⟩ := createConfirmedDialogUAC_true hcr
      have hch := receive2xxChain_spec r env (Or.inl d2) (by rw [d1]; rfl)
        (by rw [d4]; exact hok1) (by rw [d3]; exact hnc)
      obtain ⟨c1, c2, c3, c4, c5⟩ := hch
      rw [d5]
      refine ⟨c1, ?_, ?_, ?_, fun ht => absurd ht hterm0, ?_⟩
      · simp [c2]
      · intro hcount
        exfalso
        simp [c2] at hcount
      · intro hcount
        simp [c2] at hcount
        exact c3 hcount
      · intro hc
        left
        rw [c4, d3] at hc
        exact hc
    · rename_i hcr
      have hcr2 : (createConfirmedDialogUAC r
          { s with status := Status.confirmed }).1 = false := by simpa using hcr
      obtain ⟨d1, d2, d3, d4, d5⟩ := createConfirmedDialogUAC_false hcr2
      refine ⟨stateInv_of_terminated d1 (d3 hok1), by rw [d4]; omega,
        fun hcount => by rw [d4] at hcount; omega, fun _ => d1,
        fun ht => absurd ht hterm0, fun hc => Or.inl (by rw [d2] at hc; exact hc)⟩

theorem createEarlyDialogUAC_true {r : IncomingResponse} {s : Session}
    (h : (createEarlyDialogUAC r s).1 = true) :
    (createEarlyDialogUAC r s).2.1.status = s.status ∧
    (createEarlyDialogUAC r s).2.1.isCanceled = s.isCanceled ∧
    (createEarlyDialogUAC r s).2.1.dialog = s.dialog ∧
    (createEarlyDialogUAC r s).2.1.sessionTimers = s.sessionTimers ∧
    (createEarlyDialogUAC r s).2.2 = [] := by
  by_cases h1 : hasEarlyDialog r s = true
  · unfold createEarlyDialogUAC
    simp [h1]
  · by_cases h2 : dialogFails r = true
    · exfalso
      unfold createEarlyDialogUAC at h
      simp [h1, h2] at h
    · unfold createEarlyDialogUAC
      simp [h1, h2]

theorem createEarlyDialogUAC_false {r : IncomingResponse} {s : Session}
    (h : (createEarlyDialogUAC r s).1 = false) :
    (createEarlyDialogUAC r s).2.1.status = Status.terminated ∧
    (createEarlyDialogUAC r s).2.1.isCanceled = s.isCanceled ∧
    (TimerOK s.sessionTimers → TimerOK (createEarlyDialogUAC r s).2.1.sessionTimers) ∧
    endedCt (createEarlyDialogUAC r s).2.2 = 0 ∧
    failedCt (createEarlyDialogUAC r s).2.2 = 1 := by
  by_cases h1 : hasEarlyDialog r s = true
  · exfalso
    unfold createEarlyDialogUAC at h
    simp [h1] at h
  · by_cases h2 : dialogFails r = true
    · unfold createEarlyDialogUAC
      simp only [h1, h2, Bool.false_eq_true, if_false, if_true]
      exact ⟨close_status _, close_isCanceled _, fun hok => timerOK_close hok,
        by simp [emitFailed, endedCt], by simp [emitFailed, failedCt]⟩
    · exfalso
      unfold createEarlyDialogUAC at h
      simp [h1, h2] at h

theorem receive1xxProgress_sound {s : Session} (r : IncomingResponse) (env : Env)
    (hs : s.status = Status.inviteSent ∨ s.status = Status.oneXXReceived)
    (h : StateInv s) : SoundPost s (receive1xxProgress r env s) := by
  have hterm0 : s.status ≠ Status.terminated := by
    rcases hs with h1 | h1 <;> rw [h1] <;> simp
  have hnc : s.isCanceled = false := by
    cases hc : s.isCanceled
    · rfl
    · exact absurd (h.2.1 hc) hterm0
  have htm : s.sessionTimers.timer = none :=
    timer_none_of_status h
      (by rcases hs with h1 | h1 <;> rw [h1] <;> simp)
      (by rcases hs with h1 | h1 <;> rw [h1] <;> simp) hterm0
  have hInv1 : StateInv ({ s with status := Status.oneXXReceived } : Session) := by
    refine ⟨by simp, fun hc => by simp_all, fun hw => by simp at hw,
      fun d k hk => ?_, fun d k hk => ?_⟩ <;>
      exact absurd (show s.sessionTimers.timer = some (d, k) from hk)
        (by rw [htm]; simp)
  cases hb : r.body with
  | none =>
    simp only [receive1xxProgress, hb]
    exact soundPost_of_noEvents hInv1 (by simp [endedCt]) (by simp [failedCt])
      (fun ht => absurd ht hterm0) (fun hc => by simpa using hc)
  | some _ =>
    simp only [receive1xxProgress, hb]
    split <;>
      exact soundPost_of_noEvents hInv1 (by simp [endedCt]) (by simp [failedCt])
        (fun ht => absurd ht hterm0) (fun hc => by simpa using hc)

theorem receive1xx_sound {s : Session} (r : IncomingResponse) (env : Env)
    (hs : s.status = Status.inviteSent ∨ s.status = Status.oneXXReceived)
    (h : StateInv s) : SoundPost s (receive1xx r env s) := by
  have hterm0 : s.status ≠ Status.terminated := by
    rcases hs with h1 | h1 <;> rw [h1] <;> simp
  cases htt : r.toTag with
  | none =>
    simp only [receive1xx, htt]
    exact soundPost_id h
  | some _ =>
    simp only [receive1xx, htt]
    split
    · split
      · rename_i hcr
        obtain ⟨d1, d2, d3, d4, d5⟩ := createEarlyDialogUAC_true hcr
        have hInv2 : StateInv (createEarlyDialogUAC r s).2.1 :=
          stateInv_congr h d1 d2 d3 d4
        have hp := receive1xxProgress_sound r env (by rw [d1]; exact hs) hInv2
        rw [d5]
        have hp2 := soundPost_trans hp
          (fun ht => absurd ht hterm0) (fun hc => by rw [d2] at hc; exact hc)
        obtain ⟨p1, p2, p3, p4, p5, p6⟩ := hp2
        exact ⟨p1, by simpa using p2, by simpa using p3, by simpa using p4,
          fun ht => absurd ht hterm0, p6⟩
      · rename_i hcr
        have hcr2 : (createEarlyDialogUAC r s).1 = false := by simpa using hcr
        obtain ⟨d1, d2, d3, d4, d5⟩ := createEarlyDialogUAC_false hcr2
        refine ⟨stateInv_of_terminated d1 (d3 h.2.2.2.2), by rw [d4]; omega,
          fun hcount => by rw [d4] at hcount; omega, fun _ => d1,
          fun ht => absurd ht hterm0,
          fun hc => Or.inl (by rw [d2] at hc; exact hc)⟩
    · exact receive1xxProgress_sound r env hs h

theorem receiveInviteResponseNoDialog_sound {s : Session} (r : IncomingResponse)
    (env : Env) (h : StateInv s) :
    SoundPost s (receiveInviteResponseNoDialog r env s) := by
  unfold receiveInviteResponseNoDialog
  split
  · rename_i hcanc
    have hterm : s.status = Status.terminated := h.2.1 hcanc
    split
    · exact soundPost_of_noEvents h (by simp [endedCt]) (by simp [failedCt])
        (fun ht => ht) (fun hc => hc)
    · split
      · obtain ⟨t1, t2, t3, t4, t5⟩ := acceptAndTerminate_spec r none h.2.2.2.2
        exact ⟨t2, by omega, fun hx => by omega, fun _ => t1,
          fun _ => ⟨t1, t3, fun _ => hcanc⟩,
          fun hc => Or.inl (by rw [t5] at hc; exact hc)⟩
      · exact soundPost_id h
  · split
    · exact soundPost_id h
    · rename_i hncanc hst
      have hs : s.status = Status.inviteSent ∨ s.status = Status.oneXXReceived := by
        by_contra hx
        push_neg at hx
        apply hst
        simp [hx.1, hx.2]
      have hterm0 : s.status ≠ Status.terminated := by
        rcases hs with h1 | h1 <;> rw [h1] <;> simp
      have htm : s.sessionTimers.timer = none :=
        timer_none_of_status h
          (by rcases hs with h1 | h1 <;> rw [h1] <;> simp)
          (by rcases hs with h1 | h1 <;> rw [h1] <;> simp) hterm0
      split
      · refine soundPost_of_noEvents ?_ (by simp [endedCt]) (by simp [failedCt])
          (fun ht => absurd ht hterm0) (fun hc => by simpa using hc)
        refine ⟨by simp, fun hc => ?_, fun hw => by simp at hw,
          fun d k hk => ?_, fun d k hk => ?_⟩
        · exfalso
          simp at hc
          exact hterm0 (h.2.1 hc)
        · exact absurd (show s.sessionTimers.timer = some (d, k) from hk)
            (by rw [htm]; simp)
        · exact absurd (show s.sessionTimers.timer = some (d, k) from hk)
            (by rw [htm]; simp)
      · split
        · exact receive1xx_sound r env hs h
        · split
          · exact receive2xx_sound r env hs h
          · refine ⟨stateInv_close_of_not_terminated hterm0,
              by simp [emitFailed, endedCt], ?_, ?_,
              fun ht => absurd ht hterm0, ?_⟩
            · intro hcount
              simp [emitFailed, endedCt] at hcount
            · intro _
              exact emitFailed_status _ _ _
            · intro hc
              left
              rw [emitFailed_isCanceled] at hc
              exact hc

theorem receiveInviteResponse_sound {s : Session} (r : IncomingResponse) (env : Env)
    (h : StateInv s) : SoundPost s (receiveInviteResponse r env s) := by
  cases hd : s.dialog with
  | some d =>
    simp only [receiveInviteResponse, hd]
    split
    · split
      · exact soundPost_of_noEvents h (by simp [endedCt]) (by simp [failedCt])
          (fun ht => ht) (fun hc => hc)
      · split
        · exact soundPost_id h
        · exact soundPost_of_noEvents h (by simp [endedCt]) (by simp [failedCt])
            (fun ht => ht) (fun hc => hc)
    · exact receiveInviteResponseNoDialog_sound r env h
  | none =>
    simp only [receiveInviteResponse, hd]
    exact receiveInviteResponseNoDialog_sound r env h

theorem soundPost_pre {s s1 : Session} {mid : List Output} (pre : List Output)
    (hp : SoundPost s (s1, mid)) (hpre : pre.all isNeutralEv = true) :
    SoundPost s (s1, pre ++ mid) := by
  obtain ⟨p1, p2, p3, p4, p5, p6⟩ := hp
  have he : endedCt (pre ++ mid) = endedCt mid := by
    rw [endedCt_append, endedCt_of_neutral hpre]
    omega
  have hf : failedCt (pre ++ mid) = failedCt mid := by
    rw [failedCt_append, failedCt_of_neutral hpre]
    omega
  exact ⟨p1, by rw [he]; exact p2, by rw [he, hf]; exact p3, by rw [he, hf]; exact p4,
    fun ht => ⟨(p5 ht).1, by rw [he]; exact (p5 ht).2.1, by rw [hf]; exact (p5 ht).2.2⟩,
    fun hc => by
      rcases p6 hc with hx | hx
      · exact Or.inl hx
      · exact Or.inr (by rw [hf]; exact hx)⟩

theorem soundPost_suf {s s1 : Session} {mid : List Output} (suf : List Output)
    (hp : SoundPost s (s1, mid)) (hsuf : suf.all isNeutralEv = true) :
    SoundPost s (s1, mid ++ suf) := by
  obtain ⟨p1, p2, p3, p4, p5, p6⟩ := hp
  have he : endedCt (mid ++ suf) = endedCt mid := by
    rw [endedCt_append, endedCt_of_neutral hsuf]
    omega
  have hf : failedCt (mid ++ suf) = failedCt mid := by
    rw [failedCt_append, failedCt_of_neutral hsuf]
    omega
  exact ⟨p1, by rw [he]; exact p2, by rw [he, hf]; exact p3, by rw [he, hf]; exact p4,
    fun ht => ⟨(p5 ht).1, by rw [he]; exact (p5 ht).2.1, by rw [hf]; exact (p5 ht).2.2⟩,
    fun hc => by
      rcases p6 hc with hx | hx
      · exact Or.inl hx
      · exact Or.inr (by rw [hf]; exact hx)⟩

theorem createLocalDescription_neutral (offer : Bool) (env : Env) (s : Session) :
    (createLocalDescription offer env s).2.1.all isNeutralEv = true := by
  cases offer <;> unfold createLocalDescription <;> split <;> simp [isNeutralEv]

@[simp] theorem processInDialogSdpOffer_status (env : Env) (s : Session) :
    (processInDialogSdpOffer env s).1.status = s.status := by
  unfold processInDialogSdpOffer
  split
  · rfl
  · split <;> simp

@[simp] theorem processInDialogSdpOffer_isCanceled (env : Env) (s : Session) :
    (processInDialogSdpOffer env s).1.isCanceled = s.isCanceled := by
  unfold processInDialogSdpOffer
  split
  · rfl
  · split <;> simp

@[simp] theorem processInDialogSdpOffer_dialog (env : Env) (s : Session) :
    (processInDialogSdpOffer env s).1.dialog = s.dialog := by
  unfold processInDialogSdpOffer
  split
  · rfl
  · split <;> simp

@[simp] theorem processInDialogSdpOffer_sessionTimers (env : Env) (s : Session) :
    (processInDialogSdpOffer env s).1.sessionTimers = s.sessionTimers := by
  unfold processInDialogSdpOffer
  split
  · rfl
  · split <;> simp

theorem processInDialogSdpOffer_neutral (env : Env) (s : Session) :
    (processInDialogSdpOffer env s).2.1.all isNeutralEv = true := by
  have hc := createLocalDescription_neutral false env s
  unfold processInDialogSdpOffer
  split
  · simp [isNeutralEv]
  · split <;> simp [List.all_cons, List.all_append, hc, isNeutralEv]

theorem reinviteSendAnswer_sound {s : Session} (req : IncomingRequest)
    (desc : Option Nat) (h : StateInv s) (hconf : s.status = Status.confirmed) :
    SoundPost s (reinviteSendAnswer req desc s) := by
  have hterm0 : s.status ≠ Status.terminated := by rw [hconf]; simp
  have e2 : (reinviteSendAnswer req desc s).1.isCanceled = s.isCanceled :=
    handleReq_isCanceled _ _ _
  have e3 : (reinviteSendAnswer req desc s).1.dialog = s.dialog :=
    handleReq_dialog _ _ _
  have e1 : (reinviteSendAnswer req desc s).1.status = Status.waitingForAck := rfl
  refine soundPost_of_noEvents ?_ (by simp [reinviteSendAnswer])
    (by simp [reinviteSendAnswer])
    (fun ht => absurd ht hterm0) (fun hc => by rw [e2] at hc; exact hc)
  refine ⟨by rw [e1]; simp, fun hc => ?_, fun hw => ?_, fun d k _ => Or.inl rfl, ?_⟩
  · exfalso
    rw [e2] at hc
    exact hterm0 (h.2.1 hc)
  · rw [e3]
    exact h.2.2.1 (Or.inr hconf)
  · exact timerOK_handleReq _ _ h.2.2.2.2

theorem updateSendAnswer_sound {s : Session} (req : IncomingRequest)
    (desc : Option Nat) (h : StateInv s) (hconf : s.status = Status.confirmed) :
    SoundPost s (updateSendAnswer req desc s) := by
  have hterm0 : s.status ≠ Status.terminated := by rw [hconf]; simp
  have e1 : (updateSendAnswer req desc s).1.status = s.status :=
    handleReq_status _ _ _
  have e2 : (updateSendAnswer req desc s).1.isCanceled = s.isCanceled :=
    handleReq_isCanceled _ _ _
  have e3 : (updateSendAnswer req desc s).1.dialog = s.dialog :=
    handleReq_dialog _ _ _
  refine soundPost_of_noEvents ?_ (by simp [updateSendAnswer])
    (by simp [updateSendAnswer])
    (fun ht => absurd ht hterm0) (fun hc => by rw [e2] at hc; exact hc)
  refine ⟨by rw [e1, hconf]; simp, fun hc => ?_, fun hw => ?_,
    fun d k _ => Or.inr (Or.inl (e1.trans hconf)), ?_⟩
  · exfalso
    rw [e2] at hc
    exact hterm0 (h.2.1 hc)
  · rw [e3]
    exact h.2.2.1 (Or.inr hconf)
  · exact timerOK_handleReq _ _ h.2.2.2.2

theorem receiveAck_sound {s : Session} (req : IncomingRequest) (env : Env)
    (h : StateInv s) (hwfa : s.status = Status.waitingForAck) :
    SoundPost s (receiveAck req env s) := by
  have hterm0 : s.status ≠ Status.terminated := by rw [hwfa]; simp
  have hInvC : StateInv (ackConfirm s) := by
    refine ⟨by simp [ackConfirm], fun hc => ?_, fun _ => ?_, fun d k _ => ?_,
      h.2.2.2.2⟩
    · exfalso
      exact hterm0 (h.2.1 hc)
    · show s.dialog.isSome = true
      exact h.2.2.1 (Or.inl hwfa)
    · exact Or.inr (Or.inl rfl)
  unfold receiveAck
  split
  · cases hb : req.body with
    | none =>
      exact soundPost_trans
        (terminate_sound { cause := some Cause.missingSdp, statusCode := some 400 }
          hInvC)
        (fun ht => absurd ht hterm0) (fun hc => hc)
    | some b =>
      cases hr : env.setRemoteOk with
      | true =>
        cases hcf : s.isConfirmedFlag with
        | false =>
          exact soundPost_of_noEvents (stateInv_congr hInvC rfl rfl rfl rfl)
            (by simp [endedCt]) (by simp [failedCt]) (fun ht => absurd ht hterm0)
            (fun hc => by simpa using hc)
        | true =>
          exact soundPost_of_noEvents hInvC (by simp [endedCt]) (by simp [failedCt])
            (fun ht => absurd ht hterm0) (fun hc => hc)
      | false =>
        have hp := soundPost_trans
          (terminate_sound
            { cause := some Cause.badMediaDescription, statusCode := some 488 } hInvC)
          (fun ht => absurd ht hterm0) (fun hc => (hc : s.isCanceled = true))
        exact soundPost_pre [Output.evSdp]
          (soundPost_suf [Output.evPcSetRemoteFailed] hp (by simp [isNeutralEv]))
          (by simp [isNeutralEv])
  · cases hcf : s.isConfirmedFlag with
    | false =>
      exact soundPost_of_noEvents (stateInv_congr hInvC rfl rfl rfl rfl)
        (by simp [endedCt]) (by simp [failedCt]) (fun ht => absurd ht hterm0)
        (fun hc => by simpa using hc)
    | true =>
      exact soundPost_of_noEvents hInvC (by simp [endedCt]) (by simp [failedCt])
        (fun ht => absurd ht hterm0) (fun hc => hc)

theorem soundPost_neutral_self {s : Session} {l : List Output} (h : StateInv s)
    (hl : l.all isNeutralEv = true) : SoundPost s (s, l) :=
  soundPost_of_noEvents h (endedCt_of_neutral hl) (failedCt_of_neutral hl)
    (fun ht => ht) (fun hc => hc)

theorem reinviteLateSdp_sound {s0 : Session} (req : IncomingRequest) (env : Env)
    (h : StateInv s0) (hconf : s0.status = Status.confirmed) :
    SoundPost s0 (reinviteLateSdp req env s0) := by
  have hterm0 : s0.status ≠ Status.terminated := by rw [hconf]; simp
  have hInv1 : StateInv (createLocalDescription true env { s0 with lateSdp := true }).1 :=
    stateInv_congr h (by simp) (by simp) (by simp) (by simp)
  have hst1 : (createLocalDescription true env { s0 with lateSdp := true }).1.status =
      Status.confirmed := by simp [hconf]
  unfold reinviteLateSdp
  cases hd : (createLocalDescription true env { s0 with lateSdp := true }).2.2 with
  | some sdp =>
    exact soundPost_pre _
      (soundPost_trans (reinviteSendAnswer_sound req (some sdp) hInv1 hst1)
        (fun ht => absurd ht hterm0) (fun hc => by simpa using hc))
      (createLocalDescription_neutral true env { s0 with lateSdp := true })
  | none =>
    have hthis : SoundPost s0
        ((createLocalDescription true env { s0 with lateSdp := true }).1,
         (createLocalDescription true env { s0 with lateSdp := true }).2.1 ++
           [Output.reply 500 false none]) := by
      refine soundPost_of_noEvents hInv1 ?_ ?_ (fun ht => absurd ht hterm0)
        (fun hc => by simpa using hc)
      · rw [endedCt_append]
        simp
      · rw [failedCt_append]
        simp
    exact hthis

theorem reinviteWithBody_sound {s0 : Session} (req : IncomingRequest) (env : Env)
    (h : StateInv s0) (hconf : s0.status = Status.confirmed) :
    SoundPost s0 (reinviteWithBody req env s0) := by
  have hterm0 : s0.status ≠ Status.terminated := by rw [hconf]; simp
  have hInv1 : StateInv (processInDialogSdpOffer env s0).1 :=
    stateInv_congr h (by simp) (by simp) (by simp) (by simp)
  have hst1 : (processInDialogSdpOffer env s0).1.status = Status.confirmed := by
    simp [hconf]
  unfold reinviteWithBody
  cases hd : (processInDialogSdpOffer env s0).2.2 with
  | some desc =>
    exact soundPost_pre _
      (soundPost_trans (reinviteSendAnswer_sound req (some desc) hInv1 hst1)
        (fun ht => absurd ht hterm0) (fun hc => by simpa using hc))
      (processInDialogSdpOffer_neutral env s0)
  | none =>
    have hthis : SoundPost s0
        ((processInDialogSdpOffer env s0).1, (processInDialogSdpOffer env s0).2.1) := by
      refine soundPost_of_noEvents hInv1 ?_ ?_ (fun ht => absurd ht hterm0)
        (fun hc => by simpa using hc)
      · exact endedCt_of_neutral (processInDialogSdpOffer_neutral env s0)
      · exact failedCt_of_neutral (processInDialogSdpOffer_neutral env s0)
    exact hthis

theorem updateWithBody_sound {s : Session} (req : IncomingRequest) (env : Env)
    (h : StateInv s) (hconf : s.status = Status.confirmed) :
    SoundPost s (updateWithBody req env s) := by
  have hterm0 : s.status ≠ Status.terminated := by rw [hconf]; simp
  have hInv1 : StateInv (processInDialogSdpOffer env s).1 :=
    stateInv_congr h (by simp) (by simp) (by simp) (by simp)
  have hst1 : (processInDialogSdpOffer env s).1.status = Status.confirmed := by
    simp [hconf]
  unfold updateWithBody
  cases hd : (processInDialogSdpOffer env s).2.2 with
  | some desc =>
    exact soundPost_pre _
      (soundPost_trans (updateSendAnswer_sound req (some desc) hInv1 hst1)
        (fun ht => absurd ht hterm0) (fun hc => by simpa using hc))
      (processInDialogSdpOffer_neutral env s)
  | none =>
    have hthis : SoundPost s
        ((processInDialogSdpOffer env s).1, (processInDialogSdpOffer env s).2.1) := by
      refine soundPost_of_noEvents hInv1 ?_ ?_ (fun ht => absurd ht hterm0)
        (fun hc => by simpa using hc)
      · exact endedCt_of_neutral (processInDialogSdpOffer_neutral env s)
      · exact failedCt_of_neutral (processInDialogSdpOffer_neutral env s)
    exact hthis

theorem receiveReinvite_sound {s : Session} (req : IncomingRequest) (env : Env)
    (h : StateInv s) (hconf : s.status = Status.confirmed) :
    SoundPost s (receiveReinvite req env s) := by
  have hInv0 : StateInv { s with lateSdp := false } := stateInv_congr h rfl rfl rfl rfl
  have hst0 : ({ s with lateSdp := false } : Session).status = Status.confirmed := hconf
  cases hr : env.rejectCode with
  | some c =>
    simp only [receiveReinvite, hr]
    split
    · exact soundPost_neutral_self h (by simp [isNeutralEv])
    · exact soundPost_neutral_self h (by simp [isNeutralEv])
  | none =>
    cases hb : req.body with
    | none =>
      simp only [receiveReinvite, hr, hb]
      exact soundPost_pre [Output.evReinvite]
        (soundPost_trans (reinviteLateSdp_sound req env hInv0 hst0)
          (fun ht => ht) (fun hc => hc))
        (by simp [isNeutralEv])
    | some b =>
      simp only [receiveReinvite, hr, hb]
      split
      · exact soundPost_trans
          (soundPost_neutral_self hInv0 (by simp [isNeutralEv]))
          (fun ht => ht) (fun hc => hc)
      · exact soundPost_pre [Output.evReinvite]
          (soundPost_trans (reinviteWithBody_sound req env hInv0 hst0)
            (fun ht => ht) (fun hc => hc))
          (by simp [isNeutralEv])

theorem receiveUpdate_sound {s : Session} (req : IncomingRequest) (env : Env)
    (h : StateInv s) (hconf : s.status = Status.confirmed) :
    SoundPost s (receiveUpdate req env s) := by
  cases hr : env.rejectCode with
  | some c =>
    simp only [receiveUpdate, hr]
    split
    · exact soundPost_neutral_self h (by simp [isNeutralEv])
    · exact soundPost_neutral_self h (by simp [isNeutralEv])
  | none =>
    cases hb : req.body with
    | none =>
      simp only [receiveUpdate, hr, hb]
      exact soundPost_pre [Output.evUpdateEv]
        (updateSendAnswer_sound req none h hconf) (by simp [isNeutralEv])
    | some b =>
      simp only [receiveUpdate, hr, hb]
      split
      · exact soundPost_neutral_self h (by simp [isNeutralEv])
      · exact soundPost_pre [Output.evUpdateEv]
          (updateWithBody_sound req env h hconf) (by simp [isNeutralEv])

theorem receiveRequest_sound {s : Session} (req : IncomingRequest) (env : Env)
    (h : StateInv s) : SoundPost s (receiveRequest req env s) := by
  cases hm : req.method with
  | cancel =>
    simp only [receiveRequest, hm]
    split
    · rename_i hcond
      have hdis : s.status = Status.waitingForAnswer ∨ s.status = Status.answered := by
        simpa using hcond
      have hterm0 : s.status ≠ Status.terminated := by
        rcases hdis with hx | hx <;> rw [hx] <;> simp
      refine ⟨?_, ?_, ?_, ?_, fun ht => absurd ht hterm0, ?_⟩
      · exact stateInv_close_of_not_terminated (by simp)
      · simp [emitFailed]
      · simp [emitFailed]
      · simp [emitFailed, close_status]
      · exact fun _ => Or.inr (by simp [emitFailed])
    · exact soundPost_id h
  | ack =>
    simp only [receiveRequest, hm]
    split
    · exact soundPost_neutral_self h (by simp [isNeutralEv])
    · rename_i hw
      exact soundPost_pre [Output.evAckReceived]
        (receiveAck_sound req env h (not_not.mp hw)) (by simp [isNeutralEv])
  | bye =>
    simp only [receiveRequest, hm]
    split
    · rename_i hcond
      have hdis : s.status = Status.confirmed ∨ s.status = Status.waitingForAck := by
        simpa using hcond
      have hterm0 : s.status ≠ Status.terminated := by
        rcases hdis with hx | hx <;> rw [hx] <;> simp
      refine ⟨?_, ?_, ?_, ?_, fun ht => absurd ht hterm0, ?_⟩
      · exact stateInv_close_of_not_terminated (by simpa using hterm0)
      · simp [emitEnded]
      · simp [emitEnded]
      · simp [emitEnded, close_status]
      · exact fun hc => Or.inl (by simpa [emitEnded, close_isCanceled] using hc)
    · exact soundPost_neutral_self h (by simp [isNeutralEv])
  | invite =>
    simp only [receiveRequest, hm]
    split
    · rename_i hc2
      exact receiveReinvite_sound req env h hc2
    · exact soundPost_neutral_self h (by simp [isNeutralEv])
  | update =>
    simp only [receiveRequest, hm]
    split
    · rename_i hc2
      exact receiveUpdate_sound req env h hc2
    · exact soundPost_neutral_self h (by simp [isNeutralEv])
  | info =>
    simp only [receiveRequest, hm]
    split
    · cases hct : req.contentType with
      | none => exact soundPost_neutral_self h (by simp [isNeutralEv])
      | some ct => cases ct <;> exact soundPost_neutral_self h (by simp [isNeutralEv])
    · exact soundPost_neutral_self h (by simp [isNeutralEv])
  | other =>
    simp only [receiveRequest, hm]
    exact soundPost_neutral_self h (by simp [isNeutralEv])

theorem reinviteFail_sound (handlersOn : Bool) {s : Session} (h : StateInv s) :
    SoundPost s (reinviteFail handlersOn s) := by
  unfold reinviteFail
  split
  · exact terminate_sound _ h
  · exact soundPost_id h

theorem reinviteAnswerApply_sound (handlersOn : Bool) (env : Env) {s : Session}
    (h : StateInv s) : SoundPost s (reinviteAnswerApply handlersOn env s) := by
  unfold reinviteAnswerApply
  split
  · exact soundPost_neutral_self h (by simp [isNeutralEv])
  · exact soundPost_pre [Output.evSdp]
      (soundPost_suf [Output.evPcSetRemoteFailed] (reinviteFail_sound handlersOn h)
        (by simp [isNeutralEv]))
      (by simp [isNeutralEv])

theorem stateInv_handleResp (e : Option Nat) (r : Option Refresher) {s : Session}
    (h : StateInv s)
    (hst : s.status = Status.waitingForAck ∨ s.status = Status.confirmed) :
    StateInv (handleSessionTimersInIncomingResponse e r s) := by
  refine ⟨?_, ?_, ?_, fun d k _ => ?_, timerOK_handleResp e r h.2.2.2.2⟩
  · rw [handleResp_status]
    exact h.1
  · intro hc
    rw [handleResp_status]
    exact h.2.1 (by rwa [handleResp_isCanceled] at hc)
  · intro hw
    rw [handleResp_dialog]
    exact h.2.2.1 (by rwa [handleResp_status] at hw)
  · rw [handleResp_status]
    rcases hst with hx | hx
    · exact Or.inl hx
    · exact Or.inr (Or.inl hx)

theorem reinviteOnSucceeded_sound (handlersOn : Bool) (resp : ReinviteResp)
    (env : Env) {s : Session} (h : StateInv s)
    (hst : s.status = Status.waitingForAck ∨ s.status = Status.confirmed) :
    SoundPost s (reinviteOnSucceeded handlersOn resp env s) := by
  have hterm0 : s.status ≠ Status.terminated := by
    rcases hst with hx | hx <;> rw [hx] <;> simp
  have hR : StateInv
      (handleSessionTimersInIncomingResponse resp.sessionExpires
        resp.sessionRefresher s) := stateInv_handleResp _ _ h hst
  unfold reinviteOnSucceeded
  split
  · exact soundPost_id h
  · split
    · exact soundPost_pre [Output.sendAck]
        (soundPost_trans (reinviteFail_sound handlersOn hR)
          (fun ht => absurd ht hterm0)
          (fun hc => by rwa [handleResp_isCanceled] at hc))
        (by simp [isNeutralEv])
    · exact soundPost_pre [Output.sendAck]
        (soundPost_trans (reinviteAnswerApply_sound handlersOn env hR)
          (fun ht => absurd ht hterm0)
          (fun hc => by rwa [handleResp_isCanceled] at hc))
        (by simp [isNeutralEv])

theorem reinviteRespDispatch_sound (handlersOn : Bool) (env : Env) {s : Session}
    (h : StateInv s)
    (hst : s.status = Status.waitingForAck ∨ s.status = Status.confirmed) :
    SoundPost s (reinviteRespDispatch handlersOn env s) := by
  cases hro : env.respOutcome with
  | success resp =>
    simp only [reinviteRespDispatch, hro]
    exact reinviteOnSucceeded_sound handlersOn resp env h hst
  | errorResp =>
    simp only [reinviteRespDispatch, hro]
    exact reinviteFail_sound handlersOn h
  | timedOut =>
    simp only [reinviteRespDispatch, hro]
    exact onRequestTimeoutF_sound h
  | transportErr =>
    simp only [reinviteRespDispatch, hro]
    exact onTransportErrorF_sound h
  | dialogErr =>
    simp only [reinviteRespDispatch, hro]
    exact onDialogErrorF_sound h

theorem sendReinviteF_sound (handlersOn : Bool) (env : Env) {s : Session}
    (h : StateInv s)
    (hst : s.status = Status.waitingForAck ∨ s.status = Status.confirmed) :
    SoundPost s (sendReinviteF handlersOn env s) := by
  have hterm0 : s.status ≠ Status.terminated := by
    rcases hst with hx | hx <;> rw [hx] <;> simp
  have hL : StateInv (createLocalDescription true env s).1 :=
    stateInv_congr h (by simp) (by simp) (by simp) (by simp)
  have hstL : (createLocalDescription true env s).1.status = Status.waitingForAck ∨
      (createLocalDescription true env s).1.status = Status.confirmed := by
    rw [createLocalDescription_status]
    exact hst
  have hcancL : (createLocalDescription true env s).1.isCanceled = true →
      s.isCanceled = true := fun hc => by simpa using hc
  cases hd : (createLocalDescription true env s).2.2 with
  | none =>
    simp only [sendReinviteF, hd]
    exact soundPost_pre _
      (soundPost_trans (reinviteFail_sound handlersOn hL)
        (fun ht => absurd ht hterm0) hcancL)
      (createLocalDescription_neutral true env s)
  | some x =>
    simp only [sendReinviteF, hd]
    cases hdg : (createLocalDescription true env s).1.dialog with
    | none =>
      exact soundPost_pre _
        (soundPost_trans (reinviteFail_sound handlersOn hL)
          (fun ht => absurd ht hterm0) hcancL)
        (by simp [List.all_append, createLocalDescription_neutral true env s,
          isNeutralEv])
    | some d =>
      exact soundPost_pre _
        (soundPost_trans (reinviteRespDispatch_sound handlersOn env hL hstL)
          (fun ht => absurd ht hterm0) hcancL)
        (by simp [List.all_append, createLocalDescription_neutral true env s,
          isNeutralEv])

theorem updateOnSucceeded_sound (sdpOffer handlersOn : Bool) (resp : ReinviteResp)
    (env : Env) {s : Session} (h : StateInv s)
    (hst : s.status = Status.waitingForAck ∨ s.status = Status.confirmed) :
    SoundPost s (updateOnSucceeded sdpOffer handlersOn resp env s) := by
  have hterm0 : s.status ≠ Status.terminated := by
    rcases hst with hx | hx <;> rw [hx] <;> simp
  have hR : StateInv
      (handleSessionTimersInIncomingResponse resp.sessionExpires
        resp.sessionRefresher s) := stateInv_handleResp _ _ h hst
  unfold updateOnSucceeded
  split
  · exact soundPost_id h
  · split
    · exact soundPost_of_noEvents hR (by simp) (by simp)
        (fun ht => absurd ht hterm0)
        (fun hc => by rwa [handleResp_isCanceled] at hc)
    · split
      · exact soundPost_trans (reinviteFail_sound handlersOn hR)
          (fun ht => absurd ht hterm0)
          (fun hc => by rwa [handleResp_isCanceled] at hc)
      · exact soundPost_trans (reinviteAnswerApply_sound handlersOn env hR)
          (fun ht => absurd ht hterm0)
          (fun hc => by rwa [handleResp_isCanceled] at hc)

theorem updateRespDispatch_sound (sdpOffer handlersOn : Bool) (env : Env)
    {s : Session} (h : StateInv s)
    (hst : s.status = Status.waitingForAck ∨ s.status = Status.confirmed) :
    SoundPost s (updateRespDispatch sdpOffer handlersOn env s) := by
  cases hro : env.respOutcome with
  | success resp =>
    simp only [updateRespDispatch, hro]
    exact updateOnSucceeded_sound sdpOffer handlersOn resp env h hst
  | errorResp =>
    simp only [updateRespDispatch, hro]
    exact reinviteFail_sound handlersOn h
  | timedOut =>
    simp only [updateRespDispatch, hro]
    exact onRequestTimeoutF_sound h
  | transportErr =>
    simp only [updateRespDispatch, hro]
    exact onTransportErrorF_sound h
  | dialogErr =>
    simp only [updateRespDispatch, hro]
    exact onDialogErrorF_sound h

theorem sendUpdateF_sound (sdpOffer handlersOn : Bool) (env : Env) {s : Session}
    (h : StateInv s)
    (hst : s.status = Status.waitingForAck ∨ s.status = Status.confirmed) :
    SoundPost s (sendUpdateF sdpOffer handlersOn env s) := by
  have hterm0 : s.status ≠ Status.terminated := by
    rcases hst with hx | hx <;> rw [hx] <;> simp
  have hL : StateInv (createLocalDescription true env s).1 :=
    stateInv_congr h (by simp) (by simp) (by simp) (by simp)
  have hstL : (createLocalDescription true env s).1.status = Status.waitingForAck ∨
      (createLocalDescription true env s).1.status = Status.confirmed := by
    rw [createLocalDescription_status]
    exact hst
  have hcancL : (createLocalDescription true env s).1.isCanceled = true →
      s.isCanceled = true := fun hc => by simpa using hc
  cases sdpOffer with
  | true =>
    cases hd : (createLocalDescription true env s).2.2 with
    | none =>
      simp only [sendUpdateF, hd]
      exact soundPost_pre _
        (soundPost_trans (reinviteFail_sound handlersOn hL)
          (fun ht => absurd ht hterm0) hcancL)
        (createLocalDescription_neutral true env s)
    | some x =>
      simp only [sendUpdateF, hd]
      cases hdg : (createLocalDescription true env s).1.dialog with
      | none =>
        exact soundPost_pre _
          (soundPost_trans (reinviteFail_sound handlersOn hL)
            (fun ht => absurd ht hterm0) hcancL)
          (by simp [List.all_append, createLocalDescription_neutral true env s,
            isNeutralEv])
      | some d =>
        exact soundPost_pre _
          (soundPost_trans (updateRespDispatch_sound true handlersOn env hL hstL)
            (fun ht => absurd ht hterm0) hcancL)
          (by simp [List.all_append, createLocalDescription_neutral true env s,
            isNeutralEv])
  | false =>
    cases hdg : s.dialog with
    | none =>
      simp only [sendUpdateF, hdg]
      exact reinviteFail_sound handlersOn h
    | some d =>
      simp only [sendUpdateF, hdg]
      exact soundPost_pre [Output.sendUpdateReq false]
        (updateRespDispatch_sound false handlersOn env h hst)
        (by simp [isNeutralEv])

theorem renegotiate_sound (useUpdate : Bool) (env : Env) {s : Session}
    (h : StateInv s) : SoundPost s (renegotiate useUpdate env s).2 := by
  unfold renegotiate
  split
  · exact soundPost_id h
  · rename_i hcond
    have hst : s.status = Status.waitingForAck ∨ s.status = Status.confirmed := by
      by_cases h1 : s.status = Status.waitingForAck
      · exact Or.inl h1
      · right
        by_contra h2
        exact hcond (by simp [h1, h2])
    split
    · exact soundPost_id h
    · split
      · exact sendUpdateF_sound true true env h hst
      · exact sendReinviteF_sound true env h hst

theorem fireSessionTimer_sound (env : Env) {s : Session} (h : StateInv s) :
    SoundPost s (fireSessionTimer env s) := by
  cases htm : s.sessionTimers.timer with
  | none =>
    simp only [fireSessionTimer, htm]
    exact soundPost_id h
  | some p =>
    obtain ⟨d, k⟩ := p
    have hst4 := h.2.2.2.1 d k (by rw [htm])
    have hD : StateInv (sessTimerDisarm s) := by
      refine ⟨h.1, fun hc => h.2.1 hc, fun hw => h.2.2.1 hw, fun d2 k2 hk => ?_,
        fun d2 k2 hk => ?_⟩ <;> simp [sessTimerDisarm] at hk
    simp only [fireSessionTimer, htm]
    split
    · rename_i hT
      exact soundPost_of_noEvents hD (by simp) (by simp) (fun _ => hT) (fun hc => hc)
    · rename_i hnT
      have hstD : (sessTimerDisarm s).status = Status.waitingForAck ∨
          (sessTimerDisarm s).status = Status.confirmed := by
        rcases hst4 with hx | hx | hx
        · exact Or.inl hx
        · exact Or.inr hx
        · exact absurd hx hnT
      split
      · split
        · exact soundPost_trans (sendUpdateF_sound false false env hD hstD)
            (fun ht => absurd ht hnT) (fun hc => hc)
        · exact soundPost_trans (sendReinviteF_sound false env hD hstD)
            (fun ht => absurd ht hnT) (fun hc => hc)
      · exact soundPost_trans (terminate_sound _ hD)
          (fun ht => absurd ht hnT) (fun hc => hc)

theorem answerOp_sound (env : Env) {s : Session} (h : StateInv s) :
    SoundPost s (answerOp env s).2 := by
  unfold answerOp
  split
  · exact soundPost_id h
  · rename_i hw
    have hW : s.status = Status.waitingForAnswer := not_not.mp hw
    have hterm0 : s.status ≠ Status.terminated := by rw [hW]; simp
    have hnc : s.isCanceled = false := by
      cases hc : s.isCanceled
      · rfl
      · exact absurd (h.2.1 hc) (by rw [hW]; simp)
    cases hd : (createLocalDescription s.initReqBody.isNone env
        { s with status := Status.answered, lateSdp := s.initReqBody.isNone }).2.2 with
    | none =>
      refine ⟨stateInv_close_of_not_terminated (by simp), ?_, ?_, ?_,
        fun ht => absurd ht hterm0, fun _ => Or.inr ?_⟩
      · simp [emitFailed, endedCt_append]
      · simp [emitFailed, endedCt_append, failedCt_append]
      · simp [emitFailed, endedCt_append, failedCt_append, close_status]
      · simp [emitFailed, failedCt_append]
    | some sdp =>
      refine soundPost_of_noEvents ?_ ?_ ?_ (fun ht => absurd ht hterm0) ?_
      · refine ⟨by simp [setACKTimer, setInvite2xxTimer], ?_, ?_,
          fun d2 k2 _ => Or.inl rfl, ?_⟩
        · intro hc
          exfalso
          simp [setACKTimer, setInvite2xxTimer, hnc] at hc
        · intro _
          simp [setACKTimer, setInvite2xxTimer]
        · exact timerOK_handleReq _ _ (by simpa using h.2.2.2.2)
      · simp [endedCt_append]
      · simp [failedCt_append]
      · intro hc
        simpa [setACKTimer, setInvite2xxTimer] using hc

theorem stepSound (st : Step) {s : Session} (h : StateInv s) :
    SoundPost s (applyStep st s) := by
  cases st with
  | connectS args => exact connect_sound args h
  | initIncomingS b e r => exact initIncoming_sound b e r h
  | answerS env => exact answerOp_sound env h
  | terminateS opts => exact terminate_sound opts h
  | sendDTMFS tones opts infoOk => exact sendDTMF_sound tones opts infoOk h
  | dtmfFireS infoOk => exact dtmfFireCore_sound infoOk h
  | sendInfoS => exact sendInfoOp_sound h
  | sendRequestS m => exact sendRequestOp_sound m h
  | renegotiateS u env => exact renegotiate_sound u env h
  | receiveRequestS req env => exact receiveRequest_sound req env h
  | receiveInviteResponseS resp env => exact receiveInviteResponse_sound resp env h
  | fireInvite2xxS => exact fireInvite2xx_sound h
  | fireAckTimerS => exact fireAckTimer_sound h
  | fireSessionTimerS env => exact fireSessionTimer_sound env h
  | onTransportErrorS => exact onTransportErrorF_sound h
  | onRequestTimeoutS => exact onRequestTimeoutF_sound h
  | onDialogErrorS => exact onDialogErrorF_sound h

theorem stateInv_initial (te : Bool) (rm : Method) :
    StateInv (initialSession te rm) := by
  refine ⟨by simp [initialSession], ?_, ?_, fun d k hk => ?_, fun d k hk => ?_⟩ <;>
    intros <;> simp_all [initialSession]

theorem stateInv_runTrace {s0 : Session} (h : StateInv s0) (tr : List Step) :
    StateInv (runTrace s0 tr).1 := by
  induction tr generalizing s0 with
  | nil => exact h
  | cons st tr ih => exact ih (stepSound st h).1

theorem stateInv_reachable {te : Bool} {rm : Method} {s : Session}
    (h : Reachable te rm s) : StateInv s := by
  obtain ⟨tr, htr⟩ := h
  rw [← htr]
  exact stateInv_runTrace (stateInv_initial te rm) tr

/-- The invariant carried along a whole trace: the state invariant holds;
the ended event fired at most once; if it fired the session is terminated,
its cancel latch is clear, and no failed event fired; any failed event
leaves the session terminated; a latched cancel means a failed event
fired. -/
def TraceInv (r : Session × List Output) : Prop :=
  StateInv r.1 ∧
  endedCt r.2 ≤ 1 ∧
  (1 ≤ endedCt r.2 →
    r.1.status = Status.terminated ∧ r.1.isCanceled = false ∧ failedCt r.2 = 0) ∧
  (1 ≤ failedCt r.2 → r.1.status = Status.terminated) ∧
  (r.1.isCanceled = true → 1 ≤ failedCt r.2)

theorem traceInv_step {s : Session} {acc : List Output} (h : TraceInv (s, acc))
    (st : Step) : TraceInv ((applyStep st s).1, acc ++ (applyStep st s).2) := by
  obtain ⟨hInv0, hE0, hEP0, hFP0, hCP0⟩ := h
  have hInv : StateInv s := hInv0
  have hE : endedCt acc ≤ 1 := hE0
  have hEP : 1 ≤ endedCt acc →
      s.status = Status.terminated ∧ s.isCanceled = false ∧ failedCt acc = 0 := hEP0
  have hFP : 1 ≤ failedCt acc → s.status = Status.terminated := hFP0
  have hCP : s.isCanceled = true → 1 ≤ failedCt acc := hCP0
  obtain ⟨p1, p2, p3, p4, p5, p6⟩ := stepSound st hInv
  have hea := endedCt_append acc (applyStep st s).2
  have hfa := failedCt_append acc (applyStep st s).2
  refine ⟨p1, ?_, ?_, ?_, ?_⟩
  · simp only [hea]
    by_cases he : 1 ≤ endedCt acc
    · have h1 := (hEP he).1
      have h2 := (p5 h1).2.1
      omega
    · omega
  · simp only [hea, hfa]
    intro hsum
    by_cases he : 1 ≤ endedCt acc
    · obtain ⟨ht, hc, hf⟩ := hEP he
      obtain ⟨ht2, he2, hf2⟩ := p5 ht
      have hf2z : failedCt (applyStep st s).2 = 0 := by
        by_cases hx : 1 ≤ failedCt (applyStep st s).2
        · rw [hf2 hx] at hc
          exact absurd hc (by simp)
        · omega
      refine ⟨ht2, ?_, by omega⟩
      cases hcc : (applyStep st s).1.isCanceled
      · rfl
      · rcases p6 hcc with hx | hx
        · rw [hx] at hc
          exact absurd hc (by simp)
        · omega
    · have he2 : 1 ≤ endedCt (applyStep st s).2 := by omega
      have hf2 := p3 he2
      have hfz : failedCt acc = 0 := by
        by_cases hx : 1 ≤ failedCt acc
        · obtain ⟨_, hz, _⟩ := p5 (hFP hx)
          omega
        · omega
      refine ⟨p4 (by omega), ?_, by omega⟩
      cases hcc : (applyStep st s).1.isCanceled
      · rfl
      · rcases p6 hcc with hx | hx
        · have := hCP hx
          omega
        · omega
  · simp only [hfa]
    intro hsum
    by_cases hx : 1 ≤ failedCt acc
    · exact (p5 (hFP hx)).1
    · exact p4 (by omega)
  · simp only [hfa]
    intro hc
    rcases p6 hc with hx | hx
    · have := hCP hx
      omega
    · omega

theorem traceInv_runTrace {s0 : Session} {acc : List Output}
    (h : TraceInv (s0, acc)) (tr : List Step) :
    TraceInv ((runTrace s0 tr).1, acc ++ (runTrace s0 tr).2) := by
  induction tr generalizing s0 acc with
  | nil =>
    show TraceInv (s0, acc ++ [])
    simpa using h
  | cons st tr ih =>
    have h2 := ih (traceInv_step h st)
    show TraceInv ((runTrace (applyStep st s0).1 tr).1,
      acc ++ ((applyStep st s0).2 ++ (runTrace (applyStep st s0).1 tr).2))
    simpa [List.append_assoc] using h2

theorem traceInv_of_trace (te : Bool) (rm : Method) (tr : List Step) :
    TraceInv (runTrace (initialSession te rm) tr) := by
  have hbase : TraceInv (initialSession te rm, []) := by
    refine ⟨stateInv_initial te rm, by simp, by simp, by simp, ?_⟩
    intro hc
    simp [initialSession] at hc
  simpa using traceInv_runTrace hbase tr

theorem terminated_absorbing {s : Session} (h : StateInv s)
    (ht : s.status = Status.terminated) (tr : List Step) :
    (runTrace s tr).1.status = Status.terminated := by
  induction tr generalizing s with
  | nil => exact ht
  | cons st tr ih =>
    have hsp := stepSound st h
    exact ih hsp.1 (hsp.2.2.2.2.1 ht).1

theorem terminate_timers {t : Session} (h1 : t.ackTimerArmed = false)
    (h2 : t.invite2xx = none) (opts : TermOpts) :
    (terminate opts t).2.1.ackTimerArmed = false ∧
    (terminate opts t).2.1.invite2xx = none := by
  unfold terminate terminateCancel terminateBye emitFailed emitEnded close invalidCode
  repeat' split
  all_goals simp_all

/-- Claim C1, counterexample: a single 200 OK answered while the signaling
state is stable, whose fresh local offer is rejected by the engine and
whose remote answer is also rejected, fires the failed event twice on one
session, against the claim that neither event ever fires twice. -/
theorem claim_C1_counterexample :
    failedCt
      (runTrace (initialSession false Method.invite)
        [Step.connectS {},
         Step.receiveInviteResponseS
           { code := 200, body := some 5, hasContact := true, toTag := some 7 }
           { signalingStable := true, stableOfferOk := false,
             setRemoteOk := false }]).2 = 2 := by
  rfl

/-- Claim C1, amended: over every trace of public operations, incoming
requests and responses and timer firings, the ended event fires at most
once, and if it fires no failed event fires on that session; the failed
event, however, can fire more than once. -/
theorem claim_C1_amended (te : Bool) (rm : Method) (tr : List Step) :
    endedCt (runTrace (initialSession te rm) tr).2 ≤ 1 ∧
    (1 ≤ endedCt (runTrace (initialSession te rm) tr).2 →
      failedCt (runTrace (initialSession te rm) tr).2 = 0) := by
  obtain ⟨_, h2, h3, _, _⟩ := traceInv_of_trace te rm tr
  exact ⟨h2, fun he => (h3 he).2.2⟩

/-- Claim C1, amended, witness: an incoming session that is answered,
acknowledged and then released by a remote BYE fires ended exactly once
and failed never. -/
theorem claim_C1_amended_witness :
    endedCt
        (runTrace (initialSession false Method.invite)
          [Step.initIncomingS (some 3) none none, Step.answerS {},
           Step.receiveRequestS { method := Method.ack } {},
           Step.receiveRequestS { method := Method.bye } {}]).2 ≤ 1 ∧
    failedCt
        (runTrace (initialSession false Method.invite)
          [Step.initIncomingS (some 3) none none, Step.answerS {},
           Step.receiveRequestS { method := Method.ack } {},
           Step.receiveRequestS { method := Method.bye } {}]).2 = 0 :=
  ⟨(claim_C1_amended false Method.invite
      [Step.initIncomingS (some 3) none none, Step.answerS {},
       Step.receiveRequestS { method := Method.ack } {},
       Step.receiveRequestS { method := Method.bye } {}]).1,
   (claim_C1_amended false Method.invite
      [Step.initIncomingS (some 3) none none, Step.answerS {},
       Step.receiveRequestS { method := Method.ack } {},
       Step.receiveRequestS { method := Method.bye } {}]).2 (by decide)⟩

/-- Claim C2: on every reachable session state whose status is TERMINATED
or CANCELED, no further trace of operations, incoming messages or timer
firings changes the status field (the CANCELED case holds vacuously: at
step boundaries a reachable status is never CANCELED, the cancel path
closing the session to TERMINATED within the same step). -/
theorem claim_C2 {te : Bool} {rm : Method} {s : Session} (h : Reachable te rm s)
    (hs : s.status = Status.terminated ∨ s.status = Status.canceled)
    (tr : List Step) : (runTrace s tr).1.status = s.status := by
  have hInv := stateInv_reachable h
  rcases hs with ht | hc
  · rw [ht]
    exact terminated_absorbing hInv ht tr
  · exact absurd hc hInv.1

/-- Claim C2, witness: a session terminated from the NULL state keeps the
TERMINATED status across a further sendInfo step. -/
theorem claim_C2_witness :
    (runTrace (runTrace (initialSession false Method.invite) [Step.terminateS {}]).1
      [Step.sendInfoS]).1.status =
    (runTrace (initialSession false Method.invite) [Step.terminateS {}]).1.status :=
  claim_C2 ⟨[Step.terminateS {}], rfl⟩ (Or.inl (by decide)) [Step.sendInfoS]

/-- Claim C10: terminate() called while the status is INVITE_RECEIVED,
WAITING_FOR_ANSWER or ANSWERED is a silent no-op: no error, no status
change, no output, the state being returned unchanged, because the
terminate status switch has no case for these states. -/
theorem claim_C10 (opts : TermOpts) (s : Session)
    (hs : s.status = Status.inviteReceived ∨ s.status = Status.waitingForAnswer ∨
      s.status = Status.answered) :
    terminate opts s = (none, s, []) := by
  have hterm : s.status ≠ Status.terminated := by
    rcases hs with hx | hx | hx <;> rw [hx] <;> simp
  unfold terminate
  rw [if_neg hterm]
  rcases hs with hx | hx | hx <;> simp only [hx]

/-- Claim C10, witness: terminate() on an ANSWERED session returns without
error, output or state change. -/
theorem claim_C10_witness :
    terminate {} { initialSession false Method.invite with status := Status.answered } =
      (none, { initialSession false Method.invite with status := Status.answered },
       []) :=
  claim_C10 {} { initialSession false Method.invite with status := Status.answered }
    (Or.inr (Or.inr rfl))

/-- Claim C3, counterexample: a CANCEL received in WAITING_FOR_ANSWER
leaves the session with status TERMINATED, not CANCELED: the failed
handler the CANCEL branch invokes closes the session in the same step, so
the claimed final status CANCELED is never observable. -/
theorem claim_C3_counterexample :
    (receiveRequest { method := Method.cancel } {}
        (runTrace (initialSession false Method.invite)
          [Step.initIncomingS (some 3) none none]).1).1.status =
      Status.terminated ∧
    (receiveRequest { method := Method.cancel } {}
        (runTrace (initialSession false Method.invite)
          [Step.initIncomingS (some 3) none none]).1).1.status ≠
      Status.canceled := by
  exact ⟨rfl, by decide⟩

/-- Claim C3, amended: an incoming CANCEL in WAITING_FOR_ANSWER or ANSWERED
replies 487 to the pending INVITE and fires failed(remote, CANCELED),
setting the status to CANCELED and then closing the session, so the step
ends with status TERMINATED; in any other status the CANCEL produces no
reply, no event and no state change. -/
theorem claim_C3_amended (req : IncomingRequest) (env : Env) (s : Session)
    (hm : req.method = Method.cancel) :
    ((s.status = Status.waitingForAnswer ∨ s.status = Status.answered) →
      (receiveRequest req env s).2 =
        [Output.replyToInvite 487,
         Output.evFailed Originator.remote Cause.canceled] ∧
      (receiveRequest req env s).1 = close { s with status := Status.canceled } ∧
      (receiveRequest req env s).1.status = Status.terminated) ∧
    (¬(s.status = Status.waitingForAnswer ∨ s.status = Status.answered) →
      receiveRequest req env s = (s, [])) := by
  constructor
  · intro hdis
    have hcond : (decide (s.status = Status.waitingForAnswer) ||
        decide (s.status = Status.answered)) = true := by
      rcases hdis with hx | hx <;> simp [hx]
    have hre : receiveRequest req env s =
        ((emitFailed Originator.remote Cause.canceled
            { s with status := Status.canceled }).1,
         Output.replyToInvite 487 ::
           (emitFailed Originator.remote Cause.canceled
             { s with status := Status.canceled }).2) := by
      simp only [receiveRequest, hm]
      rw [if_pos hcond]
    rw [hre]
    refine ⟨by simp [emitFailed], rfl, ?_⟩
    show (close { s with status := Status.canceled }).status = Status.terminated
    exact close_status _
  · intro hneg
    have hcond : ¬((decide (s.status = Status.waitingForAnswer) ||
        decide (s.status = Status.answered)) = true) := by
      simpa using hneg
    simp only [receiveRequest, hm]
    rw [if_neg hcond]

/-- Claim C3, amended, witness: a CANCEL received in the NULL state is
ignored entirely. -/
theorem claim_C3_amended_witness :
    receiveRequest { method := Method.cancel } {} (initialSession false Method.invite) =
      (initialSession false Method.invite, []) :=
  (claim_C3_amended { method := Method.cancel } {} (initialSession false Method.invite)
      rfl).2 (by decide)

/-- Claim C4: an incoming ACK always emits ackReceived; outside
WAITING_FOR_ACK nothing else happens; in WAITING_FOR_ACK the ACK timer and
the 2xx retransmission timer are cleared, the status becomes CONFIRMED
whenever no late-SDP failure intervenes, and in late-SDP mode a bodiless
ACK terminates the session with cause MISSING_SDP and status code 400. -/
theorem claim_C4 (req : IncomingRequest) (env : Env) (s : Session)
    (hm : req.method = Method.ack) :
    (receiveRequest req env s).2.head? = some Output.evAckReceived ∧
    (s.status ≠ Status.waitingForAck →
      receiveRequest req env s = (s, [Output.evAckReceived])) ∧
    (s.status = Status.waitingForAck →
      (receiveRequest req env s).1.ackTimerArmed = false ∧
      (receiveRequest req env s).1.invite2xx = none ∧
      (s.lateSdp = true → req.body = none →
        receiveRequest req env s =
          ((terminate { cause := some Cause.missingSdp, statusCode := some 400 }
              (ackConfirm s)).2.1,
           Output.evAckReceived ::
             (terminate { cause := some Cause.missingSdp, statusCode := some 400 }
               (ackConfirm s)).2.2)) ∧
      ((s.lateSdp = true → req.body ≠ none ∧ env.setRemoteOk = true) →
        (receiveRequest req env s).1.status = Status.confirmed)) := by
  by_cases hW : s.status = Status.waitingForAck
  · have hre : receiveRequest req env s =
        ((receiveAck req env s).1,
         Output.evAckReceived :: (receiveAck req env s).2) := by
      simp only [receiveRequest, hm]
      rw [if_neg (not_not_intro hW)]
    have hArm : (receiveAck req env s).1.ackTimerArmed = false ∧
        (receiveAck req env s).1.invite2xx = none := by
      unfold receiveAck
      split
      · cases hb : req.body with
        | none => exact terminate_timers rfl rfl _
        | some b =>
          cases hr : env.setRemoteOk with
          | true =>
            cases hcf : s.isConfirmedFlag with
            | false => exact ⟨rfl, rfl⟩
            | true => exact ⟨rfl, rfl⟩
          | false => exact terminate_timers rfl rfl _
      · cases hcf : s.isConfirmedFlag with
        | false => exact ⟨rfl, rfl⟩
        | true => exact ⟨rfl, rfl⟩
    have hConf : (s.lateSdp = true → req.body ≠ none ∧ env.setRemoteOk = true) →
        (receiveAck req env s).1.status = Status.confirmed := by
      intro himp
      unfold receiveAck
      cases hl : s.lateSdp with
      | false =>
        cases hcf : s.isConfirmedFlag with
        | false => exact rfl
        | true => exact rfl
      | true =>
        obtain ⟨hbne, hrok⟩ := himp hl
        cases hb : req.body with
        | none => exact absurd hb hbne
        | some b =>
          cases hro : env.setRemoteOk with
          | true =>
            cases hcf : s.isConfirmedFlag with
            | false => exact rfl
            | true => exact rfl
          | false =>
            rw [hro] at hrok
            exact absurd hrok (by simp)
    have hMiss : s.lateSdp = true → req.body = none →
        receiveAck req env s =
          (terminate { cause := some Cause.missingSdp, statusCode := some 400 }
            (ackConfirm s)).2 := by
      intro hl hb
      unfold receiveAck
      rw [if_pos hl]
      simp only [hb]
    rw [hre]
    refine ⟨rfl, fun hx => absurd hW hx, fun _ => ⟨hArm.1, hArm.2, ?_, hConf⟩⟩
    intro hl hb
    rw [hMiss hl hb]
  · have hre : receiveRequest req env s = (s, [Output.evAckReceived]) := by
      simp only [receiveRequest, hm]
      rw [if_pos hW]
    rw [hre]
    exact ⟨rfl, fun _ => rfl, fun hx => absurd hx hW⟩

/-- Claim C4, witness: an ACK received in the NULL state emits ackReceived
and nothing else. -/
theorem claim_C4_witness :
    receiveRequest { method := Method.ack } {} (initialSession false Method.invite) =
      (initialSession false Method.invite, [Output.evAckReceived]) :=
  (claim_C4 { method := Method.ack } {} (initialSession false Method.invite) rfl).2.1
    (by decide)

/-- Claim C5: the 2xx retransmission timer is first armed with T1 and the
captured body; iterating the retransmission timeout from T1 yields exactly
min (T1 * 2 ^ n) T2, the interval doubling and capping at T2; a firing in
WAITING_FOR_ACK replies 200 with Contact and the same body and re-arms
with the doubled timeout, while a firing in any other status sends nothing
and drops the timer. -/
theorem claim_C5 (s : Session) (body : Option Nat) (t n : Nat) :
    (setInvite2xxTimer body s).invite2xx = some (T1, body) ∧
    Nat.iterate invite2xxNextTimeout n T1 = min (T1 * 2 ^ n) T2 ∧
    fireInvite2xx
        { s with
          status := Status.waitingForAck
          invite2xx := some (t, body) } =
      ({ s with
          status := Status.waitingForAck
          invite2xx := some (invite2xxNextTimeout t, body) },
       [Output.reply 200 true body]) ∧
    (s.status ≠ Status.waitingForAck →
      fireInvite2xx { s with invite2xx := some (t, body) } =
        ({ s with invite2xx := none }, [])) := by
  refine ⟨rfl, ?_, ?_, ?_⟩
  · induction n with
    | zero => decide
    | succ n ih =>
      rw [Function.iterate_succ_apply', ih]
      have h2 : T1 * 2 ^ (n + 1) = T1 * 2 ^ n * 2 := by
        rw [pow_succ, ← mul_assoc]
      rcases Nat.lt_or_ge (T1 * 2 ^ n) T2 with hlt | hge
      · rw [Nat.min_eq_left (le_of_lt hlt)]
        unfold invite2xxNextTimeout
        rw [if_pos hlt, h2]
        rcases Nat.lt_or_ge T2 (T1 * 2 ^ n * 2) with h3 | h3
        · rw [if_pos h3, Nat.min_eq_right (le_of_lt h3)]
        · rw [if_neg (Nat.not_lt.mpr h3), Nat.min_eq_left h3]
      · rw [Nat.min_eq_right hge]
        unfold invite2xxNextTimeout
        rw [if_neg (Nat.lt_irrefl T2)]
        have hle : T2 ≤ T1 * 2 ^ (n + 1) := by
          rw [h2]
          omega
        rw [Nat.min_eq_right hle]
  · simp only [fireInvite2xx]
    rw [if_neg (not_not_intro rfl)]
  · intro hne
    simp only [fireInvite2xx]
    rw [if_pos hne]

/-- Claim C5, witness: on a fresh session the 2xx timer arms at T1, three
doublings from T1 reach the T2 cap, a WAITING_FOR_ACK firing retransmits
the 200 and doubles the interval, and a NULL-status firing clears the
timer silently. -/
theorem claim_C5_witness :
    (setInvite2xxTimer (some 3) (initialSession false Method.invite)).invite2xx =
        some (T1, some 3) ∧
    Nat.iterate invite2xxNextTimeout 4 T1 = min (T1 * 2 ^ 4) T2 ∧
    fireInvite2xx
        { initialSession false Method.invite with
          status := Status.waitingForAck
          invite2xx := some (T1, some 3) } =
      ({ initialSession false Method.invite with
          status := Status.waitingForAck
          invite2xx := some (invite2xxNextTimeout T1, some 3) },
       [Output.reply 200 true (some 3)]) ∧
    fireInvite2xx
        { initialSession false Method.invite with invite2xx := some (T1, some 3) } =
      ({ initialSession false Method.invite with invite2xx := none }, []) := by
  have h := claim_C5 (initialSession false Method.invite) (some 3) T1 4
  exact ⟨h.1, h.2.1, h.2.2.1, h.2.2.2 (by decide)⟩

/-- Claim C6: for a started session timer with negotiated interval
current_expires, the refresher endpoint schedules its refresh callback at
exactly current_expires * 500 ms and the non-refresher its watchdog at
exactly current_expires * 1100 ms (an invariant of every reachable state:
an armed timer's delay equals currentExpires times 500 or 1100 according
to the refresher flag, and its kind matches that flag); a refresher firing
issues the refresh with the configured method, and a watchdog firing
terminates with REQUEST_TIMEOUT, 408 and the "Session Timer Expired"
reason unless the session is already TERMINATED, in which case the firing
only drops the timer. -/
theorem claim_C6 (te : Bool) (rm : Method) (env : Env) (s : Session) (v d2 : Nat)
    (hreach : Reachable te rm s) :
    (s.sessionTimers.currentExpires = some v →
      (runSessionTimer s).sessionTimers.timer =
        some
          (if s.sessionTimers.refresher then (v * 500, true)
           else (v * 1100, false))) ∧
    (∀ d k, s.sessionTimers.timer = some (d, k) →
      k = s.sessionTimers.refresher ∧
      d = s.sessionTimers.currentExpires.getD 0 * (if k then 500 else 1100)) ∧
    (s.sessionTimers.timer = some (d2, true) → s.status ≠ Status.terminated →
      fireSessionTimer env s =
        (if s.sessionTimers.refreshMethod = Method.update then
          sendUpdateF false false env (sessTimerDisarm s)
        else sendReinviteF false env (sessTimerDisarm s))) ∧
    (s.sessionTimers.timer = some (d2, false) → s.status ≠ Status.terminated →
      fireSessionTimer env s =
        (terminate
          { cause := some Cause.requestTimeout
            statusCode := some 408
            reasonPhrase := some Phrase.sessionTimerExpired }
          (sessTimerDisarm s)).2) ∧
    (s.sessionTimers.timer = some (d2, true) ∨
        s.sessionTimers.timer = some (d2, false) →
      s.status = Status.terminated → fireSessionTimer env s = (sessTimerDisarm s, [])) := by
  refine ⟨?_, (stateInv_reachable hreach).2.2.2.2, ?_, ?_, ?_⟩
  · intro hv
    simp [runSessionTimer, hv]
  · intro harm hnT
    simp only [fireSessionTimer, harm]
    rw [if_neg hnT]
    simp
  · intro harm hnT
    simp only [fireSessionTimer, harm]
    rw [if_neg hnT]
    simp
  · intro hdis hT
    rcases hdis with hx | hx <;>
      · simp only [fireSessionTimer, hx]
        rw [if_pos hT]

/-- Claim C6, witness: a session-timers-enabled outgoing call answered with
Session-Expires 90 and refresher uas arms the watchdog at exactly
90 * 1100 ms, and its firing terminates with REQUEST_TIMEOUT / 408 /
"Session Timer Expired". -/
theorem claim_C6_witness :
    fireSessionTimer {}
        (runTrace (initialSession true Method.invite)
          [Step.connectS {},
           Step.receiveInviteResponseS
             { code := 200, body := some 5, hasContact := true, toTag := some 7,
               sessionExpires := some 90, sessionRefresher := some Refresher.uas }
             {}]).1 =
      (terminate
        { cause := some Cause.requestTimeout
          statusCode := some 408
          reasonPhrase := some Phrase.sessionTimerExpired }
        (sessTimerDisarm
          (runTrace (initialSession true Method.invite)
            [Step.connectS {},
             Step.receiveInviteResponseS
               { code := 200, body := some 5, hasContact := true, toTag := some 7,
                 sessionExpires := some 90, sessionRefresher := some Refresher.uas }
               {}]).1)).2 :=
  (claim_C6 true Method.invite {}
      (runTrace (initialSession true Method.invite)
        [Step.connectS {},
         Step.receiveInviteResponseS
           { code := 200, body := some 5, hasContact := true, toTag := some 7,
             sessionExpires := some 90, sessionRefresher := some Refresher.uas }
           {}]).1 90 99000
      ⟨[Step.connectS {},
        Step.receiveInviteResponseS
          { code := 200, body := some 5, hasContact := true, toTag := some 7,
            sessionExpires := some 90, sessionRefresher := some Refresher.uas }
          {}], rfl⟩).2.2.2.1 (by decide) (by decide)

/-- Claim C7: renegotiate() returns false, sends nothing and changes no
session state whenever the re-offer eligibility fails, i.e. whenever
rtcReady is false, no confirmed dialog exists, or the confirmed dialog has
a pending uac or uas reply; and it returns true only when rtcReady holds
and a confirmed dialog with no pending reply exists. -/
theorem claim_C7 (useUpdate : Bool) (env : Env) (s : Session) :
    ((s.rtcReady = false ∨ s.dialog = none ∨
        (∃ dg, s.dialog = some dg ∧
          (dg.uacPendingReply || dg.uasPendingReply) = true)) →
      renegotiate useUpdate env s = (false, s, [])) ∧
    ((renegotiate useUpdate env s).1 = true →
      s.rtcReady = true ∧
      ∃ dg, s.dialog = some dg ∧ dg.uacPendingReply = false ∧
        dg.uasPendingReply = false) := by
  constructor
  · intro hin
    have hready : isReadyToReOffer s = false := by
      rcases hin with h | h | ⟨dg, hdg, hp⟩
      · simp [isReadyToReOffer, h]
      · simp [isReadyToReOffer, h]
      · simp [isReadyToReOffer, hdg, hp]
    unfold renegotiate
    split
    · rfl
    · rw [if_pos (show (!isReadyToReOffer s) = true by simp [hready])]
  · intro htrue
    unfold renegotiate at htrue
    by_cases h1 : (s.status ≠ Status.waitingForAck && s.status ≠ Status.confirmed) = true
    · rw [if_pos h1] at htrue
      exact absurd htrue (by simp)
    · rw [if_neg h1] at htrue
      by_cases h2 : (!isReadyToReOffer s) = true
      · rw [if_pos h2] at htrue
        exact absurd htrue (by simp)
      · have hready : isReadyToReOffer s = true := by simpa using h2
        unfold isReadyToReOffer at hready
        rw [Bool.and_eq_true] at hready
        obtain ⟨hrtc, hm2⟩ := hready
        refine ⟨hrtc, ?_⟩
        cases hdg : s.dialog with
        | none =>
          rw [hdg] at hm2
          exact absurd hm2 (by simp)
        | some dg =>
          rw [hdg] at hm2
          simp at hm2
          exact ⟨dg, rfl, hm2.1, hm2.2⟩

/-- Claim C7, witness: renegotiate() on a fresh session, which has no
confirmed dialog, returns false without any effect. -/
theorem claim_C7_witness :
    renegotiate true {} (initialSession false Method.invite) =
      (false, initialSession false Method.invite, []) :=
  (claim_C7 true {} (initialSession false Method.invite)).1 (Or.inr (Or.inl rfl))

/-- Claim C8, counterexample: connect() with a missing target raises a
TypeError, yet it has already overwritten the session's data attachment
before validating, so the session is not left unchanged. -/
theorem claim_C8_counterexample :
    (connect { targetGiven := false, data := some 1 }
        (initialSession false Method.invite)).1 = some Err.typeError ∧
    (connect { targetGiven := false, data := some 1 }
        (initialSession false Method.invite)).2.1 ≠
      initialSession false Method.invite := by
  exact ⟨rfl, by decide⟩

/-- Claim C8, amended: every user-induced invalid-state or invalid-argument
error of terminate, sendDTMF and sendInfo is raised synchronously with the
session left completely unchanged and nothing emitted or sent; a connect
error likewise emits and sends nothing and leaves every field unchanged
except the data attachment, which connect reassigns before validating. -/
theorem claim_C8_amended (args : ConnectArgs) (opts : TermOpts)
    (tones : Option (List Char)) (dopts : DtmfOpts) (infoOk : Bool) (s : Session) :
    ((connect args s).1.isSome = true →
      (connect args s).2 = ({ s with data := args.data.getD s.data }, [])) ∧
    ((terminate opts s).1.isSome = true → (terminate opts s).2 = (s, [])) ∧
    ((sendDTMF tones dopts infoOk s).1.isSome = true →
      (sendDTMF tones dopts infoOk s).2 = (s, [])) ∧
    ((sendInfoOp s).1.isSome = true → (sendInfoOp s).2 = (s, [])) := by
  refine ⟨?_, ?_, ?_, ?_⟩
  · unfold connect
    split
    · exact fun _ => rfl
    · split
      · exact fun _ => rfl
      · split
        · exact fun _ => rfl
        · intro h
          exact absurd h (by simp)
  · unfold terminate terminateCancel terminateBye
    repeat' split
    all_goals first
      | exact fun _ => rfl
      | (intro h; exact absurd h (by simp))
  · unfold sendDTMF
    repeat' split
    all_goals first
      | exact fun _ => rfl
      | (intro h; exact absurd h (by simp))
  · unfold sendInfoOp
    split
    · exact fun _ => rfl
    · intro h
      exact absurd h (by simp)

/-- Claim C8, amended, witness: connect with a missing target keeps
everything but the reassigned data attachment; terminate with status code
100, sendDTMF with missing tones and sendInfo outside a call each raise
with the session identically unchanged. -/
theorem claim_C8_amended_witness :
    (connect { targetGiven := false, data := some 1 }
        (initialSession false Method.invite)).2 =
      ({ initialSession false Method.invite with data := 1 }, []) ∧
    (terminate { statusCode := some 100 } (initialSession false Method.invite)).2 =
      (initialSession false Method.invite, []) ∧
    (sendDTMF none {} true (initialSession false Method.invite)).2 =
      (initialSession false Method.invite, []) ∧
    (sendInfoOp (initialSession false Method.invite)).2 =
      (initialSession false Method.invite, []) := by
  have h := claim_C8_amended { targetGiven := false, data := some 1 }
    { statusCode := some 100 } none {} true (initialSession false Method.invite)
  exact ⟨h.1 (by decide), h.2.1 (by decide), h.2.2.1 (by decide),
    h.2.2.2 (by decide)⟩

/-- Claim C9: DTMF enqueueing is compositional: on a CONFIRMED session with
no DTMF queue running, sending "1" and then "2" while the first run is
still in progress produces exactly the same outputs, and in particular the
same INFO tone sequence, as a single send of "12". -/
theorem claim_C9 (s : Session) (hconf : s.status = Status.confirmed)
    (hidle : s.tones = none) :
    (runTrace s
      [Step.sendDTMFS (some [Char.ofNat 49]) {} true,
       Step.sendDTMFS (some [Char.ofNat 50]) {} true,
       Step.dtmfFireS true, Step.dtmfFireS true, Step.dtmfFireS true]).2 =
    (runTrace s
      [Step.sendDTMFS (some [Char.ofNat 49, Char.ofNat 50]) {} true,
       Step.dtmfFireS true, Step.dtmfFireS true, Step.dtmfFireS true]).2 := by
  have h49 : isToneChar (Char.ofNat 49) = true := by decide
  have h50 : isToneChar (Char.ofNat 50) = true := by decide
  have hc49 : (Char.ofNat 49 = dtmfComma) = False := by simp [dtmfComma]
  have hc50 : (Char.ofNat 50 = dtmfComma) = False := by simp [dtmfComma]
  simp [runTrace, applyStep, sendDTMF, sendDTMFStart, dtmfFireCore, hconf, hidle,
    h49, h50, hc49, hc50, dtmfDurationOf, dtmfGapOf]

/-- Claim C9, witness: the two DTMF traces agree on a concrete confirmed
session. -/
theorem claim_C9_witness :
    (runTrace { initialSession false Method.invite with status := Status.confirmed }
      [Step.sendDTMFS (some [Char.ofNat 49]) {} true,
       Step.sendDTMFS (some [Char.ofNat 50]) {} true,
       Step.dtmfFireS true, Step.dtmfFireS true, Step.dtmfFireS true]).2 =
    (runTrace { initialSession false Method.invite with status := Status.confirmed }
      [Step.sendDTMFS (some [Char.ofNat 49, Char.ofNat 50]) {} true,
       Step.dtmfFireS true, Step.dtmfFireS true, Step.dtmfFireS true]).2 :=
  claim_C9 { initialSession false Method.invite with status := Status.confirmed }
    rfl rfl

end JsSIP
